import Mathlib

/-!
Verification of the `bflib` splash-damage / cook-off engine.

A shallow embedding, in Lean 4, of the munitions-effects engine in
`src/bflib/src/splash.rs`, together with proofs about the claims of its
natural-language specification.

Modelling conventions, used consistently below:

* `f32` / `f64` values are embedded as `ℚ`.  Rounding of IEEE arithmetic is
  not modelled; no claim under verification depends on rounding.
* `DateTime<Utc>` / `chrono::Duration` values are embedded as `Int`
  milliseconds (chrono durations are converted at their source granularity:
  `Duration::seconds s = 1000*s` ms, `Duration::minutes m = 60000*m` ms).
* Irrational `f64`/`f32` operations (`sqrt`, `powf(1/3)`, `sin`, `cos`,
  `acos`) cannot be computed exactly over `ℚ`; they are modelled as oracle
  fields of the `Host` structure below.  No verified claim depends on the
  value such an oracle returns, only (as an explicit hypothesis) on how the
  returned value compares against a threshold.
* The host simulation (DCS world/trigger/land singletons) is modelled by the
  `Host` structure: object resolution and terrain queries are pure functions,
  and rendering calls (`action.explosion`, `effect_smoke_big`,
  `signal_flare`) are modelled as always succeeding and are recorded in an
  output list of `Request`s.  Host-query failure handling that merely logs
  and substitutes a default is folded into the oracle's returned value.
* `FxHashMap` is embedded as an association list with `List.lookup`
  semantics; `insertA` replaces any existing binding.  `VecDeque` is a
  `List` whose head is the deque's front.
* Rust's saturating float-to-integer casts are embedded by `toU32` / `toU16`
  (saturating at 0 below; the upper saturation bound is irrelevant to every
  claim and kept for fidelity).
* The thread-local random generator is embedded as a stream `List ℚ`; each
  `gen_range` call consumes the head of the stream (the drawn value, assumed
  by the model to lie in the requested range).
-/

namespace Splash

/-- Three-component vector of `ℚ`, embedding `LuaVec3` (an `f64` vector). -/
structure Vec3 where
  x : ℚ
  y : ℚ
  z : ℚ
deriving DecidableEq, Repr

/-- Squared euclidean distance between two points.  The source computes
`sqrt` of this quantity; comparisons of that square root against thresholds
are modelled through the host's `sqrt` oracle. -/
def distSq (a b : Vec3) : ℚ :=
  (a.x - b.x) * (a.x - b.x) + (a.y - b.y) * (a.y - b.y) + (a.z - b.z) * (a.z - b.z)

/-- Squared norm of a vector (the source takes `sqrt` of this for speeds). -/
def normSq (v : Vec3) : ℚ := v.x * v.x + v.y * v.y + v.z * v.z

/-- Boolean infix (substring) test on character lists. -/
def isInfixB (pat : List Char) : List Char → Bool
  | [] => pat.isEmpty
  | c :: rest => pat.isPrefixOf (c :: rest) || isInfixB pat rest

/-- Source `s.contains(pat)` on Rust strings: substring test. -/
def strContains (s pat : String) : Bool := isInfixB pat.toList s.toList

/-- Source `str::to_lowercase`, character by character. -/
def strToLower (s : String) : String := String.mk (s.toList.map Char.toLower)

/-- Rust `as i64`-style truncation toward zero of a rational. -/
def truncQ (q : ℚ) : Int := if 0 ≤ q then ⌊q⌋ else ⌈q⌉

/-- Rust saturating `f32 as u32` cast. -/
def toU32 (q : ℚ) : Nat := if q ≤ 0 then 0 else min (truncQ q).toNat (2 ^ 32 - 1)

/-- Rust saturating `f32 as u16` cast. -/
def toU16 (q : ℚ) : Nat := if q ≤ 0 then 0 else min (truncQ q).toNat (2 ^ 16 - 1)

/-- Association-list lookup, embedding `HashMap::get`. -/
def lookupA {α : Type} (m : List (Nat × α)) (k : Nat) : Option α :=
  m.lookup k

/-- Association-list insert, embedding `HashMap::insert` (replaces any
existing binding for the key). -/
def insertA {α : Type} (m : List (Nat × α)) (k : Nat) (v : α) : List (Nat × α) :=
  (k, v) :: m.filter (fun kv => kv.1 ≠ k)

/-- Association-list removal, embedding `HashMap::remove`. -/
def removeA {α : Type} (m : List (Nat × α)) (k : Nat) : List (Nat × α) :=
  m.filter (fun kv => kv.1 ≠ k)

/-- String-keyed association-list lookup (`HashMap<String, _>::get`). -/
def lookupS {α : Type} (m : List (String × α)) (k : String) : Option α :=
  m.lookup k

/-- A visual-effect request issued to the host, one constructor per calling
site in the source (cosmetic smoke-effect names and presets are omitted). -/
inductive Request where
  /-- Source `action.explosion` inside `SplashDamage::create_explosion` — the
  primary explosion of a weapon impact. -/
  | explosion (position : Vec3) (power : ℚ)
  /-- Source `action.explosion` inside `create_explosion_with_power_static` —
  cascade and bomblet sub-explosions. -/
  | staticExplosion (position : Vec3) (power : ℚ)
  /-- Source `action.explosion` inside `CookOff::create_explosion`. -/
  | cookoffExplosion (position : Vec3) (power : ℚ)
  /-- Source `action.effect_smoke_big` (any preset). -/
  | bigSmoke (position : Vec3)
  /-- Source `action.effect_smoke_big` via `create_smoke_effect` (preset chosen
  from the configured size). -/
  | smokeEffect (position : Vec3) (size : Nat)
  /-- Embedding of `action.signal_flare`. -/
  | flare (position : Vec3) (color : Nat) (azimuth : Nat)
deriving DecidableEq, Repr

/-- Source `true` exactly for primary explosion requests
(`SplashDamage::create_explosion`'s own `action.explosion` call). -/
def Request.isPrimary : Request → Bool
  | .explosion _ _ => true
  | _ => false

/-- Observations the host returns for a still-existing weapon object
(`get_point` / `get_velocity`, each of which may fail individually). -/
structure WeaponObs where
  point : Option Vec3
  velocity : Option Vec3

/-- An object returned by the multi-category spatial search
(`get_position` and `get_type_name` may fail individually). -/
structure HostObject where
  position : Option Vec3
  typeName : Option String

/-- The host simulation: object/terrain queries plus oracles for the
irrational real-valued operations (see the module docstring). -/
structure Host where
  /-- Source `Weapon::get_instance` by object id; `none` = the weapon no longer
  exists (the `Err` branch of `get_weapon_object`). -/
  resolveWeapon : Nat → Option WeaponObs
  /-- Source `land.get_height` at planar coordinates `(x, z)` (failures fall back
  to height 0 at the source's query sites; the oracle returns the value the
  engine ends up using). -/
  groundHeight : ℚ → ℚ → ℚ
  /-- Source `land.get_ip` terrain intersection (the speed-proportional lookahead
  argument is folded into the oracle); `none` = no intersection / failure. -/
  getIP : Vec3 → Vec3 → Option Vec3
  /-- Source `world.search_objects_multi_category`; `none` = the search failed. -/
  scanObjects : Vec3 → ℚ → Option (List HostObject)
  /-- Source `CookOff::get_unit_object` followed by `get_point`: relocate a unit
  near its last known position; `none` = not found or position unavailable
  (both are the `found_unit = false` branch of the source). -/
  relocateUnit : Nat → Vec3 → Option Vec3
  /-- Oracle for `f64::sqrt`. -/
  sqrt : ℚ → ℚ
  /-- Oracle for `f64::powf (1/3)` (cube root). -/
  cbrt : ℚ → ℚ
  /-- Oracle for `f32`/`f64` `sin`. -/
  sin : ℚ → ℚ
  /-- Oracle for `f32`/`f64` `cos`. -/
  cos : ℚ → ℚ
  /-- Oracle for `f64::acos`. -/
  acos : ℚ → ℚ

/-- Source `get_ground_position_with_offset`: planar position with height snapped
to terrain height plus an offset. -/
def groundPosWithOffset (h : Host) (position : Vec3) (offset : ℚ) : Vec3 :=
  ⟨position.x, h.groundHeight position.x position.z + offset, position.z⟩

end Splash

namespace Splash

/-! Section: Splash-damage configuration (`SplashConfig` and sub-structures) -/

/-- Embedding of `WaveExplosionConfig`. -/
structure WaveExplosionConfig where
  enabled : Bool
  scaling : ℚ
  damage_threshold : ℚ
  always_cascade_explode : Bool
deriving DecidableEq, Repr

/-- Embedding of `BlastWaveConfig`. -/
structure BlastWaveConfig where
  search_radius : ℚ
  use_dynamic_radius : Bool
  dynamic_radius_modifier : ℚ
deriving DecidableEq, Repr

/-- Embedding of `ShapedChargeConfig`. -/
structure ShapedChargeConfig where
  enabled : Bool
  multiplier : ℚ
deriving DecidableEq, Repr

/-- Embedding of `ClusterBombConfig`. -/
structure ClusterBombConfig where
  enabled : Bool
  base_length : ℚ
  base_width : ℚ
  max_length : ℚ
  max_width : ℚ
  min_length : ℚ
  min_width : ℚ
  bomblet_reduction_modifier : Bool
  bomblet_damage_modifier : ℚ
  submunition_powers : List (String × ℚ)
deriving DecidableEq, Repr

/-- Embedding of `OrdnanceProtectionConfig`. -/
structure OrdnanceProtectionConfig where
  enabled : Bool
  protection_radius : ℚ
  detect_ordnance_destruction : Bool
  snap_to_ground_if_destroyed : Bool
  max_snapped_height : ℚ
  recent_large_explosion_snap : Bool
  recent_large_explosion_range : ℚ
  recent_large_explosion_time : ℚ
deriving DecidableEq, Repr

/-- Source `SplashConfig` (the cook-off sub-configuration lives on the `CookOff`
state and is embedded separately). -/
structure SplashConfig where
  enabled : Bool
  weapon_powers : List (String × ℚ)
  wave_explosions : WaveExplosionConfig
  blast_wave : BlastWaveConfig
  shaped_charge : ShapedChargeConfig
  cluster_bombs : ClusterBombConfig
  ordnance_protection : OrdnanceProtectionConfig
  overall_scaling : ℚ
  rocket_multiplier : ℚ
  only_players_weapons : Bool
  heat_weapons : List (String × Bool)
  cascade_damage_threshold : ℚ
  cascade_explode_threshold : ℚ
  cascade_scaling : ℚ
deriving DecidableEq, Repr

/-- Embedding of `SplashConfig::get_weapon_power`. -/
def SplashConfig.get_weapon_power (c : SplashConfig) (weapon_name : String) : Option ℚ :=
  lookupS c.weapon_powers weapon_name

/-- Embedding of `SplashConfig::has_weapon`. -/
def SplashConfig.has_weapon (c : SplashConfig) (weapon_name : String) : Bool :=
  (lookupS c.weapon_powers weapon_name).isSome

/-! Section: Splash-damage state -/

/-- Source `RecentExplosion`: appended on every realized wave explosion, read by
the ordnance-protection filter.  `time` is in ms. -/
structure RecentExplosion where
  position : Vec3
  time : Int
  radius : ℚ
deriving DecidableEq, Repr

/-- Embedding of `TrackedWeapon`. -/
structure TrackedWeapon where
  weapon_type : String
  position : Vec3
  velocity : Vec3
  speed : ℚ
  predicted_impact : Option Vec3
  last_update : Int
deriving DecidableEq, Repr

/-- Source `SplashDamage` (the `cookoff` field is a separate state machine,
embedded below; no function verified here reads both at once). -/
structure SplashDamage where
  config : SplashConfig
  tracked_weapons : List (Nat × TrackedWeapon)
  recent_explosions : List RecentExplosion
deriving DecidableEq, Repr

/-! Section: Geometry and protection predicates -/

/-- Source `is_within_sphere`: `distance_3d center position <= radius`, where
`distance_3d` is the host `sqrt` of the squared distance. -/
def is_within_sphere (h : Host) (center position : Vec3) (radius : ℚ) : Bool :=
  h.sqrt (distSq center position) ≤ radius

/-- Source `check_recent_large_explosions`: a recent explosion with radius > 50
within the configured time window and range of `position`. -/
def check_recent_large_explosions (h : Host) (s : SplashDamage) (now : Int)
    (position : Vec3) : Bool :=
  -- time window: `Duration::seconds(recent_large_explosion_time as i64)`
  let timeWindow : Int := 1000 * truncQ s.config.ordnance_protection.recent_large_explosion_time
  let range := s.config.ordnance_protection.recent_large_explosion_range
  s.recent_explosions.any fun recent =>
    decide (now - recent.time ≤ timeWindow) &&
    decide (h.sqrt (distSq recent.position position) ≤ range) &&
    decide (recent.radius > 50)

/-- Source `check_ordnance_protection`: `true` = allow the explosion.  The
`detect_ordnance_destruction` branch of the source is advisory logging only
and never changes the verdict, so it contributes nothing here. -/
def check_ordnance_protection (h : Host) (s : SplashDamage) (now : Int)
    (position : Vec3) : Bool :=
  if ¬ s.config.ordnance_protection.enabled then true
  else
    let pr := s.config.ordnance_protection.protection_radius
    if s.recent_explosions.any fun recent => is_within_sphere h recent.position position pr then
      false
    else if s.tracked_weapons.any fun kv => is_within_sphere h kv.2.position position pr then
      false
    else if s.config.ordnance_protection.recent_large_explosion_snap &&
        check_recent_large_explosions h s now position then
      false
    else true

/-! Section: Blast damage and cascades -/

/-- Source `calculate_blast_damage`: inverse-square falloff, clamped to the full
power at non-positive distance, and to zero from below. -/
def calculate_blast_damage (distance explosion_power : ℚ) : ℚ :=
  if distance ≤ 0 then explosion_power
  else max (explosion_power / (distance * distance)) 0

/-- Embedding of `BlastWaveUnit`. -/
structure BlastWaveUnit where
  position : Vec3
  distance : ℚ
  health : ℚ
  max_health : ℚ
  unit_type : String
  is_ground_unit : Bool
deriving DecidableEq, Repr

/-- Source `scan_units_in_radius`: multi-category search around `center`, keeping
objects whose position resolves; health is hard-coded to `(1.0, 1.0)` in the
source ("default to full health"). -/
def scan_units_in_radius (h : Host) (center : Vec3) (radius : ℚ) :
    Option (List BlastWaveUnit) :=
  (h.scanObjects center radius).map fun objects =>
    objects.filterMap fun o =>
      match o.position with
      | none => none
      | some p =>
          let distance := h.sqrt (distSq center p)
          let unit_type := o.typeName.getD "Unknown"
          let is_ground_unit := !strContains (strToLower unit_type) "aircraft" &&
            !strContains (strToLower unit_type) "helicopter"
          some ⟨p, distance, 1, 1, unit_type, is_ground_unit⟩

/-- Source `create_explosion_with_power_static`: a static explosion ground-snapped
with a 1.6 m offset plus its companion smoke effect.  The function mutates
no state; it is pure request emission. -/
def create_explosion_with_power_static (h : Host) (position : Vec3) (power : ℚ) :
    List Request :=
  let ground_position := groundPosWithOffset h position (16 / 10)
  [.staticExplosion ground_position power, .bigSmoke ground_position]

/-- Source `process_unit_for_cascade`: inverse-square damage, threshold gates, and
the cascade explosion at the unit's position. -/
def process_unit_for_cascade (h : Host) (cfg : SplashConfig) (u : BlastWaveUnit)
    (explosion_power : ℚ) : List Request :=
  let damage := calculate_blast_damage u.distance explosion_power
  if damage < cfg.cascade_damage_threshold then []
  else
    let health_percent := u.health / u.max_health * 100
    if health_percent > cfg.cascade_explode_threshold then []
    else
      let cascade_power := damage * cfg.cascade_scaling
      create_explosion_with_power_static h u.position cascade_power

/-- Source `execute_blast_wave`: scan and process every found unit (a failed scan
aborts the wave without failing the explosion). -/
def execute_blast_wave (h : Host) (cfg : SplashConfig) (center : Vec3)
    (blast_radius power : ℚ) : List Request :=
  match scan_units_in_radius h center blast_radius with
  | none => []
  | some units => units.flatMap fun u => process_unit_for_cascade h cfg u power

end Splash

namespace Splash

/-! Section: Cluster munitions -/

/-- Source `is_cluster_bomb`: substring match against known cluster families,
explicitly excluding `DURANDAL` anti-runway penetrators from the `BLU`
family. -/
def is_cluster_bomb (weapon_name : String) : Bool :=
  strContains weapon_name "CBU" ||
  (strContains weapon_name "BLU" && !strContains weapon_name "DURANDAL") ||
  strContains weapon_name "RBK" ||
  strContains weapon_name "BK90" ||
  weapon_name == "AGM_154A" ||
  weapon_name == "AGM_154B" ||
  strContains weapon_name "cluster" ||
  strContains weapon_name "Cluster" ||
  strContains weapon_name "bomblet" ||
  strContains weapon_name "submunition" ||
  weapon_name == "M26" ||
  weapon_name == "M39A1" ||
  weapon_name == "9M723" ||
  weapon_name == "M30"

/-- Embedding of `get_submunition_name`. -/
def get_submunition_name (weapon_name : String) : String :=
  if weapon_name == "CBU_99" || weapon_name == "ROCKEYE" then "Mk 118"
  else if weapon_name == "CBU_87" || weapon_name == "CBU_103" then "BLU-97B"
  else if weapon_name == "AGM_154A" then "BLU-97/B"
  else if weapon_name == "AGM_154B" then "BLU-108/B"
  else if weapon_name == "RBK_500AO" then "AO-2-5"
  else if weapon_name == "BLU_3B_GROUP" then "BLU-3B"
  else if weapon_name == "BL_755" then "HEAT"
  else if weapon_name == "BK90_MJ2" then "MJ2"
  else if weapon_name == "BK90_MJ1" then "MJ1"
  else if weapon_name == "BK90_MJ1_MJ2" then "MJ1-MJ2"
  else if weapon_name == "BELOUGA" || weapon_name == "BLG66_BELOUGA" then "GR_66_AC"
  else if weapon_name == "RBK_500U_OAB_2_5RT" then "OAB-2-5RT"
  else if weapon_name == "RBK_250_275_AO_1SCH" then "AO-1SCh"
  else if weapon_name == "GB-6-SFW" then "MM-06"
  else if weapon_name == "M26" then "M77"
  else if weapon_name == "M39A1" then "M74"
  else if weapon_name == "9M723" then "9N722"
  else if weapon_name == "M30" then "M77 submunitions"
  else if weapon_name == "AB_250_2_SD_2" then "SD-2"
  else "Generic"

/-- Embedding of `calculate_bomblet_spread`. -/
def calculate_bomblet_spread (cfg : ClusterBombConfig) (power : ℚ) (is_forward : Bool) : ℚ :=
  let base_spread := if is_forward then cfg.base_length else cfg.base_width
  let max_spread := if is_forward then cfg.max_length else cfg.max_width
  let min_spread := if is_forward then cfg.min_length else cfg.min_width
  let power_factor := min (power / 100) 1
  let spread := base_spread + (max_spread - base_spread) * power_factor
  min (max spread min_spread) max_spread

/-- Source `calculate_bomblet_count`: `power / 10` truncated, optionally halved,
minimum 1. -/
def calculate_bomblet_count (cfg : ClusterBombConfig) (power : ℚ) : Nat :=
  let base_count := toU32 (power / 10)
  if cfg.bomblet_reduction_modifier then max (base_count / 2) 1
  else max base_count 1

/-- The exact value of `std::f32::consts::PI`. -/
def piF32 : ℚ := 13176795 / 4194304

/-- Source `calculate_bomblet_position`: spiral distribution around the impact
point (`cos`/`sin` through the host oracles). -/
def calculate_bomblet_position (h : Host) (center : Vec3) (length width : ℚ)
    (index total_count : Nat) : Vec3 :=
  let angle := ((index : ℚ) / (total_count : ℚ)) * 2 * piF32
  let radius := ((index : ℚ) / (total_count : ℚ)) * (length + width) / 2
  ⟨center.x + radius * h.cos angle, center.y, center.z + radius * h.sin angle⟩

/-- Source `handle_cluster_bomb_effects`: one static explosion per bomblet, with
power from the submunition table (falling back to a share of the parent
power). -/
def handle_cluster_bomb_effects (h : Host) (cfg : ClusterBombConfig)
    (position : Vec3) (power : ℚ) (weapon_name : String) : List Request :=
  let length := calculate_bomblet_spread cfg power true
  let width := calculate_bomblet_spread cfg power false
  let bomblet_count := calculate_bomblet_count cfg power
  (List.range bomblet_count).flatMap fun i =>
    let bomblet_position := calculate_bomblet_position h position length width i bomblet_count
    let submunition_name := get_submunition_name weapon_name
    let bomblet_power :=
      (lookupS cfg.submunition_powers submunition_name).getD (power * cfg.bomblet_damage_modifier)
    create_explosion_with_power_static h bomblet_position bomblet_power

/-! Section: Primary explosions and the wave pipeline -/

/-- Source `SplashDamage::create_explosion`: power lookup, positivity gate,
ordnance-protection gate, scaling chain (overall, rocket, shaped charge),
cluster expansion, ground snap and the primary explosion plus smoke.  The
function takes `&mut self` in the source but writes no field, so it returns
only the emitted requests. -/
def create_explosion (h : Host) (s : SplashDamage) (now : Int)
    (weapon_name : String) (position : Vec3) : List Request :=
  match s.config.get_weapon_power weapon_name with
  | none => []
  | some explosion_power =>
    if explosion_power ≤ 0 then []
    else if ¬ check_ordnance_protection h s now position then []
    else
      let power1 := explosion_power * s.config.overall_scaling
      let power2 :=
        if strContains weapon_name "ROCKET" || strContains weapon_name "rocket" then
          power1 * s.config.rocket_multiplier
        else power1
      let final_power :=
        if s.config.shaped_charge.enabled &&
            ((lookupS s.config.heat_weapons weapon_name).getD false) then
          power2 * s.config.shaped_charge.multiplier
        else power2
      let cluster_requests :=
        if s.config.cluster_bombs.enabled && is_cluster_bomb weapon_name then
          handle_cluster_bomb_effects h s.config.cluster_bombs position final_power weapon_name
        else []
      let ground_position := groundPosWithOffset h position (1 / 10)
      cluster_requests ++ [.explosion ground_position final_power, .bigSmoke ground_position]

/-- The front-pruning loop of `add_recent_explosion`: pop entries strictly
older than the cutoff from the front, stopping at the first fresh one. -/
def pruneRecentFront (cutoff : Int) : List RecentExplosion → List RecentExplosion
  | [] => []
  | r :: rest => if r.time < cutoff then pruneRecentFront cutoff rest else r :: rest

/-- Source `add_recent_explosion`: append a record, then prune entries older than
10 s from the front. -/
def add_recent_explosion (s : SplashDamage) (now : Int) (position : Vec3)
    (radius : ℚ) : SplashDamage :=
  { s with recent_explosions :=
      pruneRecentFront (now - 10000) (s.recent_explosions ++ [⟨position, now, radius⟩]) }

/-- Source `calculate_dynamic_blast_radius`: `power^(1/3) * 10 * modifier`. -/
def calculate_dynamic_blast_radius (h : Host) (cfg : SplashConfig) (power : ℚ) : ℚ :=
  h.cbrt power * 10 * cfg.blast_wave.dynamic_radius_modifier

/-- Source `create_cascade_explosions`: the optional always-on wave cascade — one
further `create_explosion` at a fixed (+50, +50) offset, gated by the wave
damage threshold.  The synthetic weapon name carries a `_cascade` suffix. -/
def create_cascade_explosions (h : Host) (s : SplashDamage) (now : Int)
    (center : Vec3) (power : ℚ) (weapon_type : String) : List Request :=
  if ¬ s.config.wave_explosions.always_cascade_explode then []
  else
    let cascade_power := power * s.config.wave_explosions.scaling
    let cascade_position : Vec3 := ⟨center.x + 50, center.y, center.z + 50⟩
    if cascade_power ≥ s.config.wave_explosions.damage_threshold then
      create_explosion h s now (weapon_type ++ "_cascade") cascade_position
    else []

/-- Source `schedule_wave_effects`: runs the always-cascade path when the wave
scaling exceeds 1. -/
def schedule_wave_effects (h : Host) (s : SplashDamage) (now : Int)
    (center : Vec3) (power : ℚ) (weapon_type : String) : List Request :=
  if s.config.wave_explosions.scaling > 1 then
    create_cascade_explosions h s now center power weapon_type
  else []

/-- Source `create_wave_explosion`: ground-snap the center, fire the primary
explosion, record the `RecentExplosion`, execute the blast wave and the
scheduled wave effects.  Returns the new state and all emitted requests in
emission order. -/
def create_wave_explosion (h : Host) (s : SplashDamage) (now : Int)
    (center : Vec3) (power : ℚ) (weapon_type : String) :
    SplashDamage × List Request :=
  if ¬ s.config.wave_explosions.enabled then (s, [])
  else
    let blast_radius :=
      if s.config.blast_wave.use_dynamic_radius then
        calculate_dynamic_blast_radius h s.config power
      else s.config.blast_wave.search_radius
    let ground_position : Vec3 :=
      ⟨center.x, h.groundHeight center.x center.z + 1 / 10, center.z⟩
    let reqs1 := create_explosion h s now weapon_type ground_position
    let s1 := add_recent_explosion s now ground_position blast_radius
    let reqs2 := execute_blast_wave h s1.config ground_position blast_radius power
    let reqs3 := schedule_wave_effects h s1 now ground_position power weapon_type
    (s1, reqs1 ++ reqs2 ++ reqs3)

end Splash

namespace Splash

/-! Section: Weapon tracking (`check_weapon_impacts`) -/

/-- Source `calculate_predicted_impact`: terrain intersection (through the host
oracle, whose lookahead argument `speed * 3` is folded in), ground-snapped
with a 0.1 m clearance. -/
def calculate_predicted_impact (h : Host) (position velocity : Vec3) : Option Vec3 :=
  (h.getIP position velocity).map fun ip =>
    ⟨ip.x, h.groundHeight ip.x ip.z + 1 / 10, ip.z⟩

/-- Per-weapon verdict of the scan pass of `check_weapon_impacts`. -/
inductive WeaponScan where
  /-- The weapon still exists: updated tracking data. -/
  | update (w : TrackedWeapon)
  /-- The weapon no longer exists: remove it, and create an explosion when
  its type is configured. -/
  | impact (explosion : Option (Vec3 × ℚ × String))
deriving DecidableEq, Repr

/-- The body of `check_weapon_impacts`' scan loop for one tracked weapon. -/
def scan_weapon (h : Host) (cfg : SplashConfig) (now : Int) (weapon_id : Nat)
    (tw : TrackedWeapon) : WeaponScan :=
  match h.resolveWeapon weapon_id with
  | some obs =>
      -- position/velocity queries fall back to the last known values
      let current_position := obs.point.getD tw.position
      let current_velocity := obs.velocity.getD tw.velocity
      let current_speed := h.sqrt (normSq current_velocity)
      let predicted_impact := calculate_predicted_impact h current_position current_velocity
      .update { tw with
        position := current_position
        velocity := current_velocity
        speed := current_speed
        predicted_impact := predicted_impact
        last_update := now }
  | none =>
      let explosion_point := tw.predicted_impact.getD tw.position
      .impact ((cfg.get_weapon_power tw.weapon_type).map
        fun power => (explosion_point, power, tw.weapon_type))

/-- Source `check_weapon_impacts`: scan every tracked weapon, apply the collected
updates and removals, then create a wave explosion for every impact (the
collect-then-mutate structure of the source). -/
def check_weapon_impacts (h : Host) (s : SplashDamage) (now : Int) :
    SplashDamage × List Request :=
  if ¬ s.config.enabled then (s, [])
  else
    let scans := s.tracked_weapons.map fun kv => (kv.1, scan_weapon h s.config now kv.1 kv.2)
    let weapons_to_update := scans.filterMap fun sc =>
      match sc.2 with
      | .update w => some (sc.1, w)
      | .impact _ => none
    let weapons_to_remove := scans.filterMap fun sc =>
      match sc.2 with
      | .update _ => none
      | .impact _ => some sc.1
    let explosions_to_create := scans.filterMap fun sc =>
      match sc.2 with
      | .update _ => none
      | .impact e => e
    let tw1 := weapons_to_update.foldl (fun m kv => insertA m kv.1 kv.2) s.tracked_weapons
    let tw2 := weapons_to_remove.foldl (fun m k => removeA m k) tw1
    let s1 := { s with tracked_weapons := tw2 }
    explosions_to_create.foldl
      (fun acc e =>
        let (s', reqs) := create_wave_explosion h acc.1 now e.1 e.2.1 e.2.2
        (s', acc.2 ++ reqs))
      (s1, ([] : List Request))

end Splash

namespace Splash

/-! Section: Cook-off configuration -/

/-- Embedding of `ExplosionConfig`. -/
structure ExplosionConfig where
  power : ℚ
  enabled : Bool
deriving DecidableEq, Repr

/-- Embedding of `CookOffEffectConfig`. -/
structure CookOffEffectConfig where
  enabled : Bool
  count : Nat
  power : ℚ
  duration : ℚ
  random_timing : Bool
  power_random : ℚ
deriving DecidableEq, Repr

/-- Embedding of `SmokeConfig`. -/
structure SmokeConfig where
  is_tanker : Bool
  size : Nat
  duration : Nat
deriving DecidableEq, Repr

/-- Embedding of `UnitProperties`. -/
structure UnitProperties where
  explosion : ExplosionConfig
  cookoff : CookOffEffectConfig
  smoke : SmokeConfig
deriving DecidableEq, Repr

/-- Embedding of `DebrisExplosionConfig`. -/
structure DebrisExplosionConfig where
  power : ℚ
  max_distance : ℚ
deriving DecidableEq, Repr

/-- Embedding of `DebrisCountConfig`. -/
structure DebrisCountConfig where
  min : Nat
  max : Nat
deriving DecidableEq, Repr

/-- Embedding of `DebrisConfig`. -/
structure DebrisConfig where
  enabled : Bool
  explosion : DebrisExplosionConfig
  count : DebrisCountConfig
deriving DecidableEq, Repr

/-- Embedding of `FlareInstantConfig`. -/
structure FlareInstantConfig where
  enabled : Bool
  min : Nat
  max : Nat
deriving DecidableEq, Repr

/-- Embedding of `FlareTimingConfig`. -/
structure FlareTimingConfig where
  count_modifier : ℚ
  offset : ℚ
  chance : ℚ
deriving DecidableEq, Repr

/-- Embedding of `FlareConfig`. -/
structure FlareConfig where
  enabled : Bool
  color : Nat
  instant : FlareInstantConfig
  timing : FlareTimingConfig
deriving DecidableEq, Repr

/-- Embedding of `AllVehiclesConfig`. -/
structure AllVehiclesConfig where
  enabled : Bool
  damage_threshold : ℚ
  explosion : ExplosionConfig
  cookoff : CookOffEffectConfig
  smoke : SmokeConfig
  cookoff_chance : ℚ
  smoke_chance : ℚ
  smoke_with_cookoff : Bool
  explode_on_smoke_only : Bool
deriving DecidableEq, Repr

/-- Embedding of `CookOffConfig`. -/
structure CookOffConfig where
  enabled : Bool
  effects_chance : ℚ
  damage_threshold : ℚ
  debris : DebrisConfig
  flares : FlareConfig
  all_vehicles : AllVehiclesConfig
deriving DecidableEq, Repr

/-! Section: Cook-off state -/

/-- Source `Position3` (the orientation columns of the source type are never read
by the verified operations and are omitted). -/
structure Position3 where
  p : Vec3
deriving DecidableEq, Repr

/-- Embedding of `PendingCookOffEffect`. -/
structure PendingCookOffEffect where
  unit_id : Nat
  unit_name : String
  unit_type : String
  position : Position3
  start_time : Int
  is_cookoff : Bool
  is_dead : Bool
  properties : UnitProperties
deriving DecidableEq, Repr

/-- Embedding of `ScheduledCookOffEffect`. -/
structure ScheduledCookOffEffect where
  unit_id : Nat
  unit_name : String
  unit_type : String
  position : Position3
  explosion : ExplosionConfig
  cookoff : CookOffEffectConfig
  smoke : SmokeConfig
deriving DecidableEq, Repr

/-- Embedding of `ExplosionType`. -/
inductive ExplosionType where
  | Cookoff
  | Debris
  | Flare
deriving DecidableEq, Repr

/-- Embedding of `TimedExplosion`. -/
structure TimedExplosion where
  position : Position3
  power : ℚ
  trigger_time : Int
  effect_type : ExplosionType
  azimuth : Option Nat
deriving DecidableEq, Repr

/-- Embedding of `MovementTracker`. -/
structure MovementTracker where
  unit_id : Nat
  last_position : Vec3
  last_update : Int
  stationary_checks : Nat
  max_stationary_checks : Nat
  movement_threshold : ℚ
deriving DecidableEq, Repr

/-- Source `MovementTracker::new`: counter 0, 3 consecutive checks, 1 m
threshold. -/
def MovementTracker.new (unit_id : Nat) (position : Vec3) (now : Int) : MovementTracker :=
  ⟨unit_id, position, now, 0, 3, 1⟩

/-- Embedding of `PerformanceMode`. -/
inductive PerformanceMode where
  | Normal
  | Reduced
  | Minimal
  | Critical
deriving DecidableEq, Repr

/-- The `CookOff` system state.  `rng` is the stream of future random
draws; `update_times` is in microseconds; times are ms. -/
structure CookOff where
  config : CookOffConfig
  units : List (String × UnitProperties)
  pending_effects : List (Nat × PendingCookOffEffect)
  processed_units : List (Nat × Int)
  processed_smoke : List (Nat × Bool)
  effect_queue : List ScheduledCookOffEffect
  timed_explosions : List TimedExplosion
  effect_smoke_id : Nat
  movement_tracking : List (Nat × MovementTracker)
  rng : List ℚ
  update_times : List Nat
  last_update_time : Int
  adaptive_update_interval : Int
  performance_mode : PerformanceMode
deriving DecidableEq, Repr

/-- Consume one random draw (`rng.gen_range` over floats: the drawn value
is the head of the stream, 0 on exhaustion). -/
def drawQ (c : CookOff) : ℚ × CookOff :=
  (c.rng.headD 0, { c with rng := c.rng.tail })

/-- Consume one random draw for an integer range (`rng.gen_range` over
integers). -/
def drawN (c : CookOff) : Nat × CookOff :=
  let (q, c') := drawQ c
  ((truncQ q).toNat, c')

/-- Rust float `%` (remainder with the dividend's sign, truncated
quotient). -/
def fmodQ (a b : ℚ) : ℚ := a - b * truncQ (a / b)

/-- The `FlareColor` selection `match` (0 Green, 1 Red, 2 White, 3 Yellow,
default White), encoded by the numeric color code with 2 = White. -/
def flareColorCode (color : Nat) : Nat := if color ≤ 3 then color else 2

end Splash

namespace Splash

/-! Section: Cook-off operations -/

/-- The exact value of `std::f64::consts::PI`. -/
def piF64 : ℚ := 884279719003555 / 281474976710656

/-- Source `CookOff::create_explosion`: ground-snapped (0.1 m) explosion plus its
companion smoke effect. -/
def cookoffCreateExplosion (h : Host) (position : Position3) (power : ℚ) : List Request :=
  let explosion_pos := groundPosWithOffset h position.p (1 / 10)
  [.cookoffExplosion explosion_pos power, .bigSmoke explosion_pos]

/-- Source `create_smoke_effect`: smoke at terrain height + 2 m (the preset is
chosen from `size`; the request records the size). -/
def create_smoke_effect (h : Host) (position : Position3) (size : Nat) : List Request :=
  let smoke_pos : Vec3 :=
    ⟨position.p.x, h.groundHeight position.p.x position.p.z + 2, position.p.z⟩
  [.smokeEffect smoke_pos size]

/-- Source `is_candidate`: configured type, marker token in the name, or the
catch-all all-vehicles mode. -/
def is_candidate (c : CookOff) (unit_type unit_name : String) : Bool :=
  (lookupS c.units unit_type).isSome ||
  strContains unit_name "CookoffTarget" ||
  c.config.all_vehicles.enabled

/-- Source `get_properties`: per-type override, else the all-vehicles defaults. -/
def get_properties (c : CookOff) (unit_type : String) : UnitProperties :=
  match lookupS c.units unit_type with
  | some properties => properties
  | none =>
      ⟨c.config.all_vehicles.explosion, c.config.all_vehicles.cookoff,
        c.config.all_vehicles.smoke⟩

/-- One iteration of the instant-flare loop of
`schedule_cookoff_flares_timed` (draws: azimuth jitter, x offset, z
offset). -/
def instantFlareStep (start_time : Int) (position : Position3) (angle_step : ℚ)
    (i : Nat) (c : CookOff) : CookOff :=
  let base_azimuth := (i : ℚ) * angle_step
  let (jitter, c) := drawQ c
  let azimuth := toU16 (fmodQ (base_azimuth + jitter) 360)
  let (offset_x, c) := drawQ c
  let (offset_z, c) := drawQ c
  let flare_pos : Position3 :=
    ⟨⟨position.p.x + offset_x, position.p.y, position.p.z + offset_z⟩⟩
  { c with timed_explosions :=
      c.timed_explosions ++ [⟨flare_pos, 0, start_time, .Flare, some azimuth⟩] }

/-- One iteration of the time-spread flare loop of
`schedule_cookoff_flares_timed` (draws: delay, azimuth, x offset, z
offset). -/
def timedFlareStep (h : Host) (start_time : Int) (position : Position3)
    (cookoff_duration : ℚ) (c : CookOff) : CookOff :=
  let (qd, c) := drawQ c
  let delay_seconds := qd * cookoff_duration
  let (azimuth, c) := drawN c
  let (offset_x, c) := drawQ c
  let (offset_z, c) := drawQ c
  let ground_height := h.groundHeight position.p.x position.p.z
  let flare_pos : Position3 :=
    ⟨⟨position.p.x + offset_x, ground_height, position.p.z + offset_z⟩⟩
  let trigger_time := start_time + truncQ (delay_seconds * 1000)
  { c with timed_explosions :=
      c.timed_explosions ++ [⟨flare_pos, 0, trigger_time, .Flare, some azimuth⟩] }

/-- Source `schedule_cookoff_flares_timed`: chance gate, count computation, then
either an instant radial burst or time-spread flares, all enqueued as
`TimedExplosion`s. -/
def schedule_cookoff_flares_timed (h : Host) (c : CookOff) (position : Position3)
    (cookoff_count : Nat) (cookoff_duration : ℚ) (start_time : Int) : CookOff :=
  let (q, c) := drawQ c
  if q > c.config.flares.timing.chance then c
  else
    let flare_count := toU32 ((cookoff_count : ℚ) * c.config.flares.timing.count_modifier)
    if flare_count = 0 then c
    else if c.config.flares.instant.enabled then
      let (instant_count, c) := drawN c
      let angle_step := 360 / (instant_count : ℚ)
      (List.range instant_count).foldl
        (fun c i => instantFlareStep start_time position angle_step i c) c
    else
      (List.range flare_count).foldl
        (fun c _ => timedFlareStep h start_time position cookoff_duration c) c

/-- One iteration of the cook-off explosion loop of
`schedule_cookoff_effects_for_effect` (a delay draw only under random
timing, a power draw only under nonzero variance). -/
def cookoffExplosionStep (effect : ScheduledCookOffEffect) (now : Int) (i : Nat)
    (c : CookOff) : CookOff :=
  let (delay_seconds, c) :=
    if effect.cookoff.random_timing then
      let (q, c) := drawQ c
      (q * effect.cookoff.duration, c)
    else ((i : ℚ) * (effect.cookoff.duration / (effect.cookoff.count : ℚ)), c)
  let base_power := effect.cookoff.power
  let power_variation := effect.cookoff.power_random / 100
  let (cookoff_power, c) :=
    if effect.cookoff.power_random = 0 then (base_power, c)
    else
      let (q, c) := drawQ c
      (base_power * (1 + power_variation * (q * 2 - 1)), c)
  let trigger_time := now + truncQ (delay_seconds * 1000)
  { c with timed_explosions :=
      c.timed_explosions ++ [⟨effect.position, cookoff_power, trigger_time, .Cookoff, none⟩] }

/-- One iteration of the debris loop of `schedule_debris_effects_timed`
(draws: theta, phi, radius, height, delay). -/
def debrisStep (h : Host) (effect : ScheduledCookOffEffect) (start_time : Int)
    (c : CookOff) : CookOff :=
  let (qt, c) := drawQ c
  let theta := qt * 2 * piF64
  let (qp, c) := drawQ c
  let phi := h.acos (qp * 2 - 1)
  let min_dist := c.config.debris.explosion.max_distance * (1 / 10)
  let max_dist := c.config.debris.explosion.max_distance
  let (qr, c) := drawQ c
  let r := qr * (max_dist - min_dist) + min_dist
  let debris_x := effect.position.p.x + r * h.sin phi * h.cos theta
  let debris_z := effect.position.p.z + r * h.sin phi * h.sin theta
  let (qy, c) := drawQ c
  let debris_y := effect.position.p.y + qy * max_dist
  let debris_pos : Position3 := ⟨⟨debris_x, debris_y, debris_z⟩⟩
  let (delay_seconds, c) := drawQ c
  let trigger_time := start_time + truncQ (delay_seconds * 1000)
  { c with timed_explosions :=
      c.timed_explosions ++
        [⟨debris_pos, c.config.debris.explosion.power, trigger_time, .Debris, none⟩] }

/-- Source `schedule_debris_effects_timed`: a random debris count, then one timed
debris explosion per piece. -/
def schedule_debris_effects_timed (h : Host) (c : CookOff)
    (effect : ScheduledCookOffEffect) (start_time : Int) : CookOff :=
  let (debris_count, c) := drawN c
  (List.range debris_count).foldl (fun c _ => debrisStep h effect start_time c) c

/-- Source `schedule_cookoff_effects_for_effect`: flares (when enabled), the
cook-off explosion batch, debris (when enabled) — all pushed onto the
timed-explosion queue. -/
def schedule_cookoff_effects_for_effect (h : Host) (c : CookOff)
    (effect : ScheduledCookOffEffect) (now : Int) : CookOff :=
  let c :=
    if c.config.flares.enabled then
      schedule_cookoff_flares_timed h c effect.position effect.cookoff.count
        effect.cookoff.duration now
    else c
  let c := (List.range effect.cookoff.count).foldl
    (fun c i => cookoffExplosionStep effect now i c) c
  if c.config.debris.enabled then schedule_debris_effects_timed h c effect now
  else c

/-- Source `trigger_effects_immediately`: find the scheduled effect for the unit
(warn-and-skip when absent), fire initial explosion and smoke, schedule the
cook-off batch, and drop the effect from the queue. -/
def trigger_effects_immediately (h : Host) (c : CookOff) (unit_id : Nat)
    (now : Int) : CookOff × List Request :=
  match c.effect_queue.find? (fun e => e.unit_id == unit_id) with
  | none => (c, [])
  | some effect =>
      let reqs1 :=
        if effect.explosion.enabled then
          cookoffCreateExplosion h effect.position effect.explosion.power
        else []
      let reqs2 :=
        if effect.smoke.is_tanker then
          create_smoke_effect h effect.position effect.smoke.size
        else []
      let c :=
        if effect.cookoff.enabled && effect.cookoff.count > 0 then
          schedule_cookoff_effects_for_effect h c effect now
        else c
      let c := { c with effect_queue := c.effect_queue.filter (fun e => e.unit_id ≠ unit_id) }
      (c, reqs1 ++ reqs2)

/-- Source `start_movement_tracking`: insert a fresh `MovementTracker` at the
pending effect's position, falling back to immediate effects when no
pending effect exists. -/
def start_movement_tracking (h : Host) (c : CookOff) (unit_id : Nat) (now : Int) :
    CookOff × List Request :=
  match lookupA c.pending_effects unit_id with
  | some pending_effect =>
      let tracker := MovementTracker.new unit_id pending_effect.position.p now
      ({ c with movement_tracking := insertA c.movement_tracking unit_id tracker }, [])
  | none => trigger_effects_immediately h c unit_id now

/-- Source `schedule_cookoff_effects`: weighted cook-off/smoke draws, enqueue the
`ScheduledCookOffEffect`, then movement tracking (live unit) or immediate
triggering (dead unit). -/
def schedule_cookoff_effects (h : Host) (c : CookOff) (unit_id : Nat)
    (from_dead_event : Bool) (now : Int) : CookOff × List Request :=
  match lookupA c.pending_effects unit_id with
  | none => (c, [])
  | some pending_effect =>
      let properties := pending_effect.properties
      let cookoff_chance :=
        if (lookupS c.units pending_effect.unit_type).isSome then 1
        else c.config.all_vehicles.cookoff_chance
      let (q1, c) := drawQ c
      let should_cookoff := q1 ≤ cookoff_chance
      let (should_smoke, c) :=
        if should_cookoff && c.config.all_vehicles.smoke_with_cookoff then (true, c)
        else
          let (q2, c) := drawQ c
          (q2 ≤ c.config.all_vehicles.smoke_chance, c)
      let scheduled_effect : ScheduledCookOffEffect :=
        { unit_id := unit_id
          unit_name := pending_effect.unit_name
          unit_type := pending_effect.unit_type
          position := pending_effect.position
          explosion := ⟨properties.explosion.power, properties.explosion.enabled⟩
          cookoff :=
            { enabled := should_cookoff
              count := properties.cookoff.count
              power := properties.cookoff.power
              duration := properties.cookoff.duration
              random_timing := properties.cookoff.random_timing
              power_random := properties.cookoff.power_random }
          smoke := ⟨should_smoke, properties.smoke.size, properties.smoke.duration⟩ }
      let c := { c with effect_queue := c.effect_queue ++ [scheduled_effect] }
      if ¬ from_dead_event then start_movement_tracking h c unit_id now
      else trigger_effects_immediately h c unit_id now

/-- Source `process_unit_hit`: the `unseen → pending` transition — duplicate
suppression, candidacy, damage threshold (bypassed for dead units), the
effects-chance draw, then creation of the pending effect and immediate
scheduling. -/
def process_unit_hit (h : Host) (c : CookOff) (now : Int) (unit_id : Nat)
    (unit_name unit_type : String) (position : Position3) (health_percent : ℚ)
    (is_dead : Bool) : CookOff × List Request :=
  if ¬ c.config.enabled then (c, [])
  else if (lookupA c.processed_units unit_id).isSome then (c, [])
  else if ¬ is_candidate c unit_type unit_name then (c, [])
  else
    let damage_threshold :=
      if (lookupS c.units unit_type).isSome then c.config.damage_threshold
      else c.config.all_vehicles.damage_threshold
    if health_percent > damage_threshold ∧ ¬ is_dead then (c, [])
    else
      let (q, c) := drawQ c
      if q > c.config.effects_chance then (c, [])
      else
        let properties := get_properties c unit_type
        let pending_effect : PendingCookOffEffect :=
          { unit_id := unit_id
            unit_name := unit_name
            unit_type := unit_type
            position := position
            start_time := now
            is_cookoff := true
            is_dead := is_dead
            properties := properties }
        let c := { c with
          pending_effects := insertA c.pending_effects unit_id pending_effect
          processed_units := insertA c.processed_units unit_id now }
        schedule_cookoff_effects h c unit_id is_dead now

end Splash

namespace Splash

/-! Section: Movement tracking -/

/-- The per-unit verdict of one `update_movement_tracking` pass. -/
inductive MoveOutcome where
  /-- Sampled less than one second ago: skip this tick. -/
  | skip
  /-- Stationary long enough: trigger effects and remove the tracker. -/
  | trigger
  /-- Stationary, below the check threshold: bump the counter. -/
  | continueTrack (t : MovementTracker)
  /-- Moved at least the threshold: reset the counter. -/
  | reset (t : MovementTracker)
  /-- The unit could not be relocated: remove the tracker (without
  triggering). -/
  | removeLost
deriving DecidableEq, Repr

/-- The loop body of `update_movement_tracking` for one tracker, with the
host relocation result passed explicitly.  The source gates on
`signed_duration_since(last_update).num_seconds() >= 1`, which over ms
timestamps is `now - last_update ≥ 1000`. -/
def movement_step_obs (t : MovementTracker) (now : Int) (reloc : Option Vec3)
    (sqrt : ℚ → ℚ) : MoveOutcome :=
  if ¬ (now - t.last_update ≥ 1000) then .skip
  else
    match reloc with
    | none => .removeLost
    | some current_position =>
        let distance := sqrt (distSq current_position t.last_position)
        if distance < t.movement_threshold then
          let new_stationary_checks := t.stationary_checks + 1
          if new_stationary_checks ≥ t.max_stationary_checks then .trigger
          else .continueTrack { t with
            stationary_checks := new_stationary_checks
            last_position := current_position
            last_update := now }
        else .reset { t with
          stationary_checks := 0
          last_position := current_position
          last_update := now }

/-- Source `movement_step_obs` with the relocation coming from the host. -/
def movement_step (h : Host) (t : MovementTracker) (now : Int) : MoveOutcome :=
  movement_step_obs t now (h.relocateUnit t.unit_id t.last_position) h.sqrt

/-- Source `update_movement_tracking`: scan every tracker, apply in-place counter
updates, then trigger effects for settled units and drop finished trackers
(the collect-then-mutate structure of the source). -/
def update_movement_tracking (h : Host) (c : CookOff) (now : Int) :
    CookOff × List Request :=
  let steps := c.movement_tracking.map fun kv => (kv.1, movement_step h kv.2 now)
  let tracking1 := steps.foldl
    (fun m s =>
      match s.2 with
      | .continueTrack t => insertA m s.1 t
      | .reset t => insertA m s.1 t
      | _ => m)
    c.movement_tracking
  let units_to_trigger := steps.filterMap fun s =>
    match s.2 with
    | .trigger => some s.1
    | _ => none
  let units_to_remove := steps.filterMap fun s =>
    match s.2 with
    | .trigger => some s.1
    | .removeLost => some s.1
    | _ => none
  let c1 := { c with movement_tracking := tracking1 }
  let (c2, reqs) := units_to_trigger.foldl
    (fun acc uid =>
      let (c', r) := trigger_effects_immediately h acc.1 uid now
      (c', acc.2 ++ r))
    (c1, ([] : List Request))
  let c3 := { c2 with
    movement_tracking := units_to_remove.foldl (fun m k => removeA m k) c2.movement_tracking }
  (c3, reqs)

/-! Section: Timed explosions -/

/-- Realize one due `TimedExplosion` (cook-off/debris explosions with
positive power; flares with their stored azimuth, drawing a fresh azimuth
when none was stored). -/
def realize_timed (h : Host) (c : CookOff) (te : TimedExplosion) :
    CookOff × List Request :=
  match te.effect_type with
  | .Cookoff | .Debris =>
      if te.power > 0 then (c, cookoffCreateExplosion h te.position te.power)
      else (c, [])
  | .Flare =>
      let (azimuth, c) :=
        match te.azimuth with
        | some a => (a, c)
        | none => drawN c
      (c, [.flare te.position.p (flareColorCode c.config.flares.color) azimuth])

/-- The drain loop of `process_timed_explosions`: pop from the front while
the front entry's trigger time has elapsed, realizing each popped entry;
stop at the first entry that is not yet due. -/
def drainTimed (h : Host) (now : Int) : CookOff → List TimedExplosion →
    CookOff × List Request
  | c, [] => ({ c with timed_explosions := [] }, [])
  | c, te :: rest =>
      if now ≥ te.trigger_time then
        let (c1, reqs1) := realize_timed h c te
        let (c2, reqs2) := drainTimed h now c1 rest
        (c2, reqs1 ++ reqs2)
      else ({ c with timed_explosions := te :: rest }, [])

/-- Embedding of `process_timed_explosions`. -/
def process_timed_explosions (h : Host) (c : CookOff) (now : Int) :
    CookOff × List Request :=
  drainTimed h now c c.timed_explosions

/-! Section: Adaptive performance governor -/

/-- The interval (ms) assigned to each performance mode. -/
def intervalFor : PerformanceMode → Int
  | .Normal => 100
  | .Reduced => 200
  | .Minimal => 400
  | .Critical => 750

/-- The mode selected from an average tick cost in microseconds
(thresholds 25 ms / 16 ms / 10 ms). -/
def modeOf (avg_update_time : Nat) : PerformanceMode :=
  if avg_update_time > 25000 then .Critical
  else if avg_update_time > 16000 then .Minimal
  else if avg_update_time > 10000 then .Reduced
  else .Normal

/-- Source `update_performance_monitoring`: push the sample, keep the last 10,
and once at least 5 samples exist select the mode from the integer average,
updating mode and interval only on a mode change. -/
def update_performance_monitoring (c : CookOff) (update_duration_us : Nat) : CookOff :=
  let times0 := c.update_times ++ [update_duration_us]
  let times := if times0.length > 10 then times0.tail else times0
  if times.length ≥ 5 then
    let avg_update_time := times.sum / times.length
    let new_mode := modeOf avg_update_time
    if new_mode ≠ c.performance_mode then
      { c with
        update_times := times
        performance_mode := new_mode
        adaptive_update_interval := intervalFor new_mode }
    else { c with update_times := times }
  else { c with update_times := times }

/-- Source `should_skip_update`: skip while less than the adaptive interval has
elapsed since the last executed tick. -/
def should_skip_update (c : CookOff) (now : Int) : Bool :=
  now - c.last_update_time < c.adaptive_update_interval

/-! Section: The per-tick `update` -/

/-- The processed-unit retention step of `CookOff::update` (source lines
3252–3253): drop entries older than `PROCESSED_UNITS_CLEANUP_MINUTES`
(5 minutes = 300000 ms). -/
def prune_processed_units (c : CookOff) (now : Int) : CookOff :=
  { c with processed_units := c.processed_units.filter fun kv => kv.2 > now - 300000 }

/-- Ordered insertion for the processed-smoke cleanup sort. -/
def insertByKey (kv : Nat × Bool) : List (Nat × Bool) → List (Nat × Bool)
  | [] => [kv]
  | a :: rest => if kv.1 ≤ a.1 then kv :: a :: rest else a :: insertByKey kv rest

/-- Sort by unit id (the cleanup's `sort_by_key`). -/
def sortByKey : List (Nat × Bool) → List (Nat × Bool)
  | [] => []
  | a :: rest => insertByKey a (sortByKey rest)

/-- The processed-smoke cleanup of `CookOff::update`: above 100 entries,
sort by unit id and keep the first 50. -/
def cleanup_processed_smoke (c : CookOff) : CookOff :=
  if c.processed_smoke.length > 100 then
    { c with processed_smoke := (sortByKey c.processed_smoke).take 50 }
  else c

/-- The effect-queue drain of `CookOff::update`: pop every scheduled
effect, firing its initial explosion/smoke and scheduling its cook-off
batch. -/
def drainEffectQueue (h : Host) (now : Int) : CookOff → List ScheduledCookOffEffect →
    CookOff × List Request
  | c, [] => (c, [])
  | c, effect :: rest =>
      let reqs1 :=
        if effect.explosion.enabled then
          cookoffCreateExplosion h effect.position effect.explosion.power
        else []
      let (c, reqs2) :=
        if effect.smoke.is_tanker then
          ({ c with processed_smoke := insertA c.processed_smoke effect.unit_id true },
            create_smoke_effect h effect.position effect.smoke.size)
        else (c, [])
      let c :=
        if effect.cookoff.enabled then schedule_cookoff_effects_for_effect h c effect now
        else c
      let (c', rest_reqs) := drainEffectQueue h now c rest
      (c', reqs1 ++ reqs2 ++ rest_reqs)

/-- The pipeline of `CookOff::update` past its gates — retention prunes,
ready-pending promotion, effect-queue drain, timed-explosion drain, and
performance accounting.  `update_duration_us` is the measured wall-clock
cost of this tick (an input of the model). -/
def update_body (h : Host) (c : CookOff) (now : Int) (update_duration_us : Nat) :
    CookOff × List Request :=
    let c := prune_processed_units c now
    let c := cleanup_processed_smoke c
    let ready_effects := c.pending_effects.filterMap fun kv =>
      if now - kv.2.start_time ≥ 2000 ∧ (kv.2.is_dead ∨ now - kv.2.start_time ≥ 3000) then
        some kv.1
      else none
    let (c, reqs1) := ready_effects.foldl
      (fun acc uid =>
        match lookupA acc.1.pending_effects uid with
        | none => acc
        | some pending_effect =>
            let c' := { acc.1 with pending_effects := removeA acc.1.pending_effects uid }
            let (c'', r) := schedule_cookoff_effects h c' uid pending_effect.is_dead now
            (c'', acc.2 ++ r))
      (c, ([] : List Request))
    let queue := c.effect_queue
    let (c, reqs2) := drainEffectQueue h now { c with effect_queue := [] } queue
    let (c, reqs3) := process_timed_explosions h c now
    let c := update_performance_monitoring c update_duration_us
    let c := { c with last_update_time := now }
    (c, reqs1 ++ reqs2 ++ reqs3)

/-- Source `CookOff::update`: the enabled and skip gates in front of the per-tick
pipeline `update_body`. -/
def update (h : Host) (c : CookOff) (now : Int) (update_duration_us : Nat) :
    CookOff × List Request :=
  if ¬ c.config.enabled then (c, [])
  else if should_skip_update c now then (c, [])
  else update_body h c now update_duration_us

end Splash

namespace Splash

/-! Section: witness fixtures and verification-support definitions -/

/-- A trivial host used to instantiate witnesses (all queries fail / all
oracles return 0). -/
def trivialHost : Host where
  resolveWeapon := fun _ => none
  groundHeight := fun _ _ => 0
  getIP := fun _ _ => none
  scanObjects := fun _ _ => none
  relocateUnit := fun _ _ => none
  sqrt := fun _ => 0
  cbrt := fun _ => 0
  sin := fun _ => 0
  cos := fun _ => 0
  acos := fun _ => 0

/-- A unit record used to instantiate witnesses. -/
def unitW : BlastWaveUnit :=
  { position := ⟨0, 0, 0⟩
    distance := 5
    health := 1
    max_health := 1
    unit_type := "Tank"
    is_ground_unit := true }

/-- A splash configuration used to instantiate witnesses. -/
def cfgW : SplashConfig where
  enabled := true
  weapon_powers := [("BOMB", 100)]
  wave_explosions := ⟨true, 1, 1, false⟩
  blast_wave := ⟨100, false, 1⟩
  shaped_charge := ⟨false, 1⟩
  cluster_bombs := ⟨false, 1, 1, 1, 1, 1, 1, false, 1, []⟩
  ordnance_protection := ⟨false, 100, false, false, 0, false, 0, 0⟩
  overall_scaling := 1
  rocket_multiplier := 1
  only_players_weapons := false
  heat_weapons := []
  cascade_damage_threshold := 1
  cascade_explode_threshold := 100
  cascade_scaling := 2

/-- A host whose spatial scan returns one object at the origin, used to
instantiate the scan witness. -/
def scanHostW : Host :=
  { trivialHost with
      scanObjects := fun _ _ => some [⟨some ⟨0, 0, 0⟩, some "Tank"⟩] }

/-- Scenario configuration: base power 100, overall scaling 3/2, no
rocket/HEAT/cluster classification. -/
def cfg150 : SplashConfig := { cfgW with overall_scaling := 3 / 2 }

/-- Scenario state for `cfg150`. -/
def s150 : SplashDamage := ⟨cfg150, [], []⟩

/-- Scenario configuration: HEAT weapon of base power 80, shaped-charge
multiplier 1/5, overall scaling 1. -/
def cfg16 : SplashConfig :=
  { cfgW with
      weapon_powers := [("HEATW", 80)]
      shaped_charge := ⟨true, 1 / 5⟩
      heat_weapons := [("HEATW", true)] }

/-- Scenario state for `cfg16`. -/
def s16 : SplashDamage := ⟨cfg16, [], []⟩

/-- Governor state used to instantiate the witness: four prior samples of
18 ms, mode Normal, interval 100 ms. -/
def govW : CookOff where
  config :=
    { enabled := true
      effects_chance := 1
      damage_threshold := 25
      debris := ⟨false, ⟨1, 8⟩, ⟨6, 12⟩⟩
      flares := ⟨false, 2, ⟨true, 2, 5⟩, ⟨1, 1 / 2, 1 / 2⟩⟩
      all_vehicles := ⟨true, 25, ⟨40, true⟩, ⟨true, 4, 10, 30, true, 50⟩, ⟨true, 4, 180⟩,
        2 / 5, 7 / 10, true, true⟩ }
  units := []
  pending_effects := []
  processed_units := []
  processed_smoke := []
  effect_queue := []
  timed_explosions := []
  effect_smoke_id := 1
  movement_tracking := []
  rng := []
  update_times := [18000, 18000, 18000, 18000]
  last_update_time := 0
  adaptive_update_interval := 100
  performance_mode := .Normal

/-- Cook-off state used to instantiate the idempotence witness: unit 7 was
processed at time 1000. -/
def procW : CookOff := { govW with processed_units := [(7, 1000)] }

/-- Result of feeding a sequence of movement samples to one tracker. -/
inductive MoveResult where
  | triggered
  | lost
  | tracking (t : MovementTracker)
deriving DecidableEq, Repr

/-- Feed a list of `(sample time, relocation result)` pairs through
`movement_step_obs`, applying the tracker updates the source applies and
stopping at a trigger or a lost unit. -/
def feedSamples (sq : ℚ → ℚ) : MovementTracker → List (Int × Option Vec3) → MoveResult
  | t, [] => .tracking t
  | t, (now, reloc) :: rest =>
      match movement_step_obs t now reloc sq with
      | .skip => feedSamples sq t rest
      | .trigger => .triggered
      | .removeLost => .lost
      | .continueTrack t' => feedSamples sq t' rest
      | .reset t' => feedSamples sq t' rest

/-- The samples are consecutive valid 1-second samples, each displacing the
unit less than the tracker's movement threshold. -/
def stationaryChain (sq : ℚ → ℚ) : MovementTracker → List (Int × Vec3) → Bool
  | _, [] => true
  | t, (now, p) :: rest =>
      decide (now - t.last_update ≥ 1000) &&
      decide (sq (distSq p t.last_position) < t.movement_threshold) &&
      stationaryChain sq
        { t with
          stationary_checks := t.stationary_checks + 1
          last_position := p
          last_update := now } rest

/-- Tracker used to instantiate the movement-gating witness. -/
def trackW : MovementTracker := ⟨1, ⟨0, 0, 0⟩, 0, 0, 3, 1⟩

/-- Sample sequence used to instantiate the movement-gating witness. -/
def samplesW : List (Int × Vec3) := [(1000, ⟨0, 0, 0⟩), (2000, ⟨0, 0, 0⟩), (3000, ⟨0, 0, 0⟩)]

/-- A host that can never relocate any unit. -/
def lostHost : Host := trivialHost

/-- Cook-off state for the C7 counterexample: unit 1 is movement-tracked
and has a scheduled effect (with an enabled initial explosion) waiting in
the queue. -/
def lostW : CookOff :=
  { govW with
      movement_tracking := [(1, trackW)]
      effect_queue := [{ unit_id := 1
                         unit_name := "u"
                         unit_type := "Tank"
                         position := ⟨⟨0, 0, 0⟩⟩
                         explosion := ⟨40, true⟩
                         cookoff := ⟨false, 0, 0, 0, false, 0⟩
                         smoke := ⟨false, 4, 180⟩ }] }

/-- Trigger times of the entries `process_timed_explosions` drains at
`now`, in commit order (the maximal elapsed prefix of the queue). -/
def commitTimes (c : CookOff) (now : Int) : List Int :=
  (c.timed_explosions.takeWhile fun te => decide (now ≥ te.trigger_time)).map
    (·.trigger_time)

/-- Scheduled effect used by the C9 counterexample: two cook-off
sub-explosions, random timing over a 10 s window, no power variance. -/
def effC9 : ScheduledCookOffEffect :=
  { unit_id := 1
    unit_name := "u"
    unit_type := "Tank"
    position := ⟨⟨0, 0, 0⟩⟩
    explosion := ⟨40, false⟩
    cookoff := ⟨true, 2, 5, 10, true, 0⟩
    smoke := ⟨false, 4, 180⟩ }

/-- State feeding the C9 counterexample: random draws 9/10 then 1/10
(flares and debris disabled in `govW`'s configuration). -/
def preC9 : CookOff := { govW with rng := [9 / 10, 1 / 10] }

/-- The queue after one scheduling call of the counterexample. -/
def schedC9 : CookOff := schedule_cookoff_effects_for_effect trivialHost preC9 effC9 0

/-- Configuration for the C2 counterexample: ordnance protection enabled
with a 100 m radius; wave explosions enabled; cascade explode threshold
100 (full-health units may cascade). -/
def c2cfg : SplashConfig :=
  { cfgW with ordnance_protection := ⟨true, 100, false, false, 0, false, 0, 0⟩ }

/-- State for the C2 counterexample: one recent explosion at the origin
(time 0, radius 10), no tracked weapons. -/
def c2State : SplashDamage := ⟨c2cfg, [], [⟨⟨0, 0, 0⟩, 0, 10⟩]⟩

/-- Tracked weapon used by the C1 witness: a "BOMB" with a predicted
impact point. -/
def twW : TrackedWeapon :=
  { weapon_type := "BOMB"
    position := ⟨1, 2, 3⟩
    velocity := ⟨0, 0, 0⟩
    speed := 0
    predicted_impact := some ⟨4, 0, 6⟩
    last_update := 0 }

/-- State used by the C1 witness: one tracked weapon, id 5. -/
def impactState : SplashDamage := ⟨cfgW, [(5, twW)], []⟩

/-- State used by the drain-order witness: a time-sorted queue of two
cook-off entries. -/
def drainW : CookOff :=
  { govW with timed_explosions :=
      [⟨⟨⟨0, 0, 0⟩⟩, 5, 100, .Cookoff, none⟩, ⟨⟨⟨0, 0, 0⟩⟩, 5, 500, .Cookoff, none⟩] }

/-! Section: Helper lemmas -/

/-- Source `create_explosion_with_power_static` never emits a primary explosion
request. -/
theorem filter_isPrimary_static (h : Host) (position : Vec3) (power : ℚ) :
    (create_explosion_with_power_static h position power).filter Request.isPrimary = [] := by
  simp [create_explosion_with_power_static, Request.isPrimary]

/-- Source `process_unit_for_cascade` never emits a primary explosion request. -/
theorem filter_isPrimary_cascade (h : Host) (cfg : SplashConfig) (u : BlastWaveUnit)
    (power : ℚ) :
    (process_unit_for_cascade h cfg u power).filter Request.isPrimary = [] := by
  simp only [process_unit_for_cascade]
  split_ifs <;> simp [filter_isPrimary_static]

/-- A list of per-unit cascade requests contains no primary explosion
request. -/
theorem filter_isPrimary_cascade_flatMap (h : Host) (cfg : SplashConfig)
    (power : ℚ) (units : List BlastWaveUnit) :
    ((units.flatMap fun u => process_unit_for_cascade h cfg u power).filter
      Request.isPrimary) = [] := by
  induction units with
  | nil => rfl
  | cons u rest ih =>
      simp only [List.flatMap_cons, List.filter_append, ih, filter_isPrimary_cascade,
        List.nil_append]

/-- Source `execute_blast_wave` never emits a primary explosion request. -/
theorem filter_isPrimary_blast_wave (h : Host) (cfg : SplashConfig) (center : Vec3)
    (blast_radius power : ℚ) :
    (execute_blast_wave h cfg center blast_radius power).filter Request.isPrimary = [] := by
  unfold execute_blast_wave
  split
  · rfl
  · exact filter_isPrimary_cascade_flatMap ..

/-- A batch of static (bomblet) explosions contains no primary explosion
request. -/
theorem filter_isPrimary_static_flatMap (h : Host) (l : List Nat) (f : Nat → Vec3)
    (g : Nat → ℚ) :
    ((l.flatMap fun i => create_explosion_with_power_static h (f i) (g i)).filter
      Request.isPrimary) = [] := by
  induction l with
  | nil => rfl
  | cons i rest ih =>
      simp only [List.flatMap_cons, List.filter_append, ih, filter_isPrimary_static,
        List.nil_append]

/-- Cluster bomblet expansion never emits a primary explosion request. -/
theorem filter_isPrimary_cluster (h : Host) (cfg : ClusterBombConfig) (position : Vec3)
    (power : ℚ) (weapon_name : String) :
    (handle_cluster_bomb_effects h cfg position power weapon_name).filter
      Request.isPrimary = [] := by
  simp only [handle_cluster_bomb_effects]
  exact filter_isPrimary_static_flatMap h (List.range (calculate_bomblet_count cfg power))
    (fun i => calculate_bomblet_position h position (calculate_bomblet_spread cfg power true)
      (calculate_bomblet_spread cfg power false) i (calculate_bomblet_count cfg power))
    (fun _ => (lookupS cfg.submunition_powers (get_submunition_name weapon_name)).getD
      (power * cfg.bomblet_damage_modifier))

/-- C4: for every unit scanned in a blast wave of power `P` at distance
`D`, the computed blast damage is `P / D²` for `D > 0` and `P` itself for
`D ≤ 0`, and a cascade explosion of power `damage * cascade_scaling` is
created at the unit's (ground-snapped) position iff the damage reaches
`cascade_damage_threshold` and the unit's health percentage is at most
`cascade_explode_threshold`. -/
theorem blast_damage_and_cascade_gate (h : Host) (cfg : SplashConfig)
    (u : BlastWaveUnit) (P : ℚ) (hP : 0 ≤ P) :
    (0 < u.distance →
      calculate_blast_damage u.distance P = P / (u.distance * u.distance)) ∧
    (u.distance ≤ 0 → calculate_blast_damage u.distance P = P) ∧
    (process_unit_for_cascade h cfg u P ≠ [] ↔
      cfg.cascade_damage_threshold ≤ calculate_blast_damage u.distance P ∧
      u.health / u.max_health * 100 ≤ cfg.cascade_explode_threshold) ∧
    (cfg.cascade_damage_threshold ≤ calculate_blast_damage u.distance P →
      u.health / u.max_health * 100 ≤ cfg.cascade_explode_threshold →
      process_unit_for_cascade h cfg u P =
        [.staticExplosion (groundPosWithOffset h u.position (16 / 10))
            (calculate_blast_damage u.distance P * cfg.cascade_scaling),
          .bigSmoke (groundPosWithOffset h u.position (16 / 10))]) ∧
    (groundPosWithOffset h u.position (16 / 10)).x = u.position.x ∧
    (groundPosWithOffset h u.position (16 / 10)).z = u.position.z := by
  refine ⟨?_, ?_, ?_, ?_, rfl, rfl⟩
  · intro hD
    unfold calculate_blast_damage
    rw [if_neg (by linarith)]
    exact max_eq_left (div_nonneg hP (by positivity))
  · intro hD
    unfold calculate_blast_damage
    rw [if_pos hD]
  · unfold process_unit_for_cascade
    simp only [create_explosion_with_power_static]
    constructor
    · intro hne
      by_contra hcon
      push_neg at hcon
      rcases lt_or_le (calculate_blast_damage u.distance P) cfg.cascade_damage_threshold with
        hlt | hge
      · exact hne (by rw [if_pos hlt])
      · have hhp := hcon hge
        rw [if_neg (not_lt.mpr hge), if_pos (lt_of_not_le fun hcl => absurd hcl hhp.not_le)] at hne
        · exact hne rfl
    · rintro ⟨hdmg, hhp⟩
      rw [if_neg (not_lt.mpr hdmg), if_neg (not_lt.mpr hhp)]
      simp
  · intro hdmg hhp
    unfold process_unit_for_cascade
    rw [if_neg (not_lt.mpr hdmg), if_neg (not_lt.mpr hhp)]
    rfl

/-- Witness for `blast_damage_and_cascade_gate`: power 100 at distance 5
(damage 4, unit at full health, explode threshold 100 → cascade of power
8). -/
theorem blast_damage_and_cascade_gate_witness :
    (0 : ℚ) ≤ 100 ∧
    ((0 : ℚ) < unitW.distance →
      calculate_blast_damage unitW.distance 100 = 100 / (unitW.distance * unitW.distance)) ∧
    (unitW.distance ≤ 0 → calculate_blast_damage unitW.distance 100 = 100) ∧
    (process_unit_for_cascade trivialHost cfgW unitW 100 ≠ [] ↔
      cfgW.cascade_damage_threshold ≤ calculate_blast_damage unitW.distance 100 ∧
      unitW.health / unitW.max_health * 100 ≤ cfgW.cascade_explode_threshold) ∧
    (cfgW.cascade_damage_threshold ≤ calculate_blast_damage unitW.distance 100 →
      unitW.health / unitW.max_health * 100 ≤ cfgW.cascade_explode_threshold →
      process_unit_for_cascade trivialHost cfgW unitW 100 =
        [.staticExplosion (groundPosWithOffset trivialHost unitW.position (16 / 10))
            (calculate_blast_damage unitW.distance 100 * cfgW.cascade_scaling),
          .bigSmoke (groundPosWithOffset trivialHost unitW.position (16 / 10))]) ∧
    (groundPosWithOffset trivialHost unitW.position (16 / 10)).x = unitW.position.x ∧
    (groundPosWithOffset trivialHost unitW.position (16 / 10)).z = unitW.position.z :=
  ⟨by norm_num, blast_damage_and_cascade_gate trivialHost cfgW unitW 100 (by norm_num)⟩

/-- C10: every `BlastWaveUnit` produced by the blast-wave unit scan has
`health = max_health = 1` (the source hard-codes full health), so its
health percentage is 100 %, and whenever `cascade_explode_threshold < 100`
the per-unit cascade processing creates nothing for any scanned unit. -/
theorem scan_units_full_health (h : Host) (cfg : SplashConfig) (center : Vec3)
    (radius P : ℚ) (units : List BlastWaveUnit)
    (hscan : scan_units_in_radius h center radius = some units) :
    (∀ u ∈ units, u.health = 1 ∧ u.max_health = 1) ∧
    (cfg.cascade_explode_threshold < 100 →
      ∀ u ∈ units, process_unit_for_cascade h cfg u P = []) := by
  have hmem : ∀ u ∈ units, u.health = 1 ∧ u.max_health = 1 := by
    intro u hu
    unfold scan_units_in_radius at hscan
    rcases hobj : h.scanObjects center radius with _ | objects
    · rw [hobj] at hscan; exact absurd hscan (by simp)
    · rw [hobj] at hscan
      simp only [Option.map_some', Option.some.injEq] at hscan
      subst hscan
      rcases List.mem_filterMap.mp hu with ⟨o, _, ho⟩
      rcases hpos : o.position with _ | p
      · rw [hpos] at ho; exact absurd ho (by simp)
      · rw [hpos] at ho
        simp only [Option.some.injEq] at ho
        subst ho
        exact ⟨rfl, rfl⟩
  refine ⟨hmem, fun hτ u hu => ?_⟩
  rcases hmem u hu with ⟨hh, hm⟩
  simp only [process_unit_for_cascade]
  split_ifs with h1 h2
  · rfl
  · rfl
  · exfalso
    rw [not_lt, hh, hm] at h2
    norm_num at h2
    linarith

/-- Witness for `scan_units_full_health`: a concrete scan producing one
full-health unit, on a configuration with explode threshold 90 < 100. -/
theorem scan_units_full_health_witness :
    scan_units_in_radius scanHostW ⟨0, 0, 0⟩ 100 =
      some [⟨⟨0, 0, 0⟩, 0, 1, 1, "Tank", true⟩] ∧
    ((∀ u ∈ [(⟨⟨0, 0, 0⟩, 0, 1, 1, "Tank", true⟩ : BlastWaveUnit)],
        u.health = 1 ∧ u.max_health = 1) ∧
      ({ cfgW with cascade_explode_threshold := 90 }.cascade_explode_threshold < 100 →
        ∀ u ∈ [(⟨⟨0, 0, 0⟩, 0, 1, 1, "Tank", true⟩ : BlastWaveUnit)],
          process_unit_for_cascade scanHostW { cfgW with cascade_explode_threshold := 90 } u
            100 = [])) :=
  ⟨by decide, scan_units_full_health scanHostW { cfgW with cascade_explode_threshold := 90 }
    ⟨0, 0, 0⟩ 100 100 _ (by decide)⟩

/-- The filtered primary output of `create_explosion` for a configured
weapon with positive power that passes ordnance protection: exactly one
primary request, at the ground-snapped position, with the scaled power
chain. -/
theorem filter_isPrimary_create_explosion (h : Host) (s : SplashDamage) (now : Int)
    (weapon_name : String) (position : Vec3) (B : ℚ)
    (hB : s.config.get_weapon_power weapon_name = some B)
    (hBpos : 0 < B)
    (hprot : check_ordnance_protection h s now position = true) :
    (create_explosion h s now weapon_name position).filter Request.isPrimary =
      [.explosion (groundPosWithOffset h position (1 / 10))
        (B * s.config.overall_scaling *
          (if strContains weapon_name "ROCKET" || strContains weapon_name "rocket" then
            s.config.rocket_multiplier
          else 1) *
          (if s.config.shaped_charge.enabled &&
              (lookupS s.config.heat_weapons weapon_name).getD false then
            s.config.shaped_charge.multiplier
          else 1))] := by
  simp only [create_explosion, hB]
  rw [if_neg (not_le.mpr hBpos), if_neg (by simp [hprot])]
  rw [List.filter_append]
  have hclu : ∀ fp : ℚ,
      ((if s.config.cluster_bombs.enabled && is_cluster_bomb weapon_name then
          handle_cluster_bomb_effects h s.config.cluster_bombs position fp weapon_name
        else []).filter Request.isPrimary) = [] := by
    intro fp
    split
    · exact filter_isPrimary_cluster ..
    · rfl
  rw [hclu]
  simp only [List.nil_append, List.filter, Request.isPrimary]
  split_ifs <;> simp [Request.isPrimary]

/-- C3: for a configured weapon of base power `B > 0` that passes ordnance
protection, the realized primary explosion power is `B`, scaled by
`overall_scaling`, by `rocket_multiplier` exactly when the name matches a
rocket pattern, and by the shaped-charge multiplier exactly when shaped
charge is enabled and the weapon is flagged HEAT, in that order. -/
theorem primary_power_scaling_chain (h : Host) (s : SplashDamage) (now : Int)
    (weapon_name : String) (position : Vec3) (B : ℚ)
    (hB : s.config.get_weapon_power weapon_name = some B)
    (hBpos : 0 < B)
    (hprot : check_ordnance_protection h s now position = true) :
    (create_explosion h s now weapon_name position).filter Request.isPrimary =
      [.explosion (groundPosWithOffset h position (1 / 10))
        (B * s.config.overall_scaling *
          (if strContains weapon_name "ROCKET" || strContains weapon_name "rocket" then
            s.config.rocket_multiplier
          else 1) *
          (if s.config.shaped_charge.enabled &&
              (lookupS s.config.heat_weapons weapon_name).getD false then
            s.config.shaped_charge.multiplier
          else 1))] :=
  filter_isPrimary_create_explosion h s now weapon_name position B hB hBpos hprot

/-- Witness for `primary_power_scaling_chain`, covering both spec
scenarios: base power 100 with scaling 3/2 and no rocket/HEAT flags gives
150; HEAT base power 80 with shaped-charge multiplier 1/5 and scaling 1
gives 16. -/
theorem primary_power_scaling_chain_witness :
    (s150.config.get_weapon_power "BOMB" = some 100 ∧ (0 : ℚ) < 100 ∧
      check_ordnance_protection trivialHost s150 0 ⟨0, 0, 0⟩ = true ∧
      (create_explosion trivialHost s150 0 "BOMB" ⟨0, 0, 0⟩).filter Request.isPrimary =
        [.explosion ⟨0, 1 / 10, 0⟩ 150]) ∧
    (s16.config.get_weapon_power "HEATW" = some 80 ∧ (0 : ℚ) < 80 ∧
      check_ordnance_protection trivialHost s16 0 ⟨0, 0, 0⟩ = true ∧
      (create_explosion trivialHost s16 0 "HEATW" ⟨0, 0, 0⟩).filter Request.isPrimary =
        [.explosion ⟨0, 1 / 10, 0⟩ 16]) := by
  refine ⟨⟨by decide, by norm_num, by decide, ?_⟩, ⟨by decide, by norm_num, by decide, ?_⟩⟩
  · rw [primary_power_scaling_chain trivialHost s150 0 "BOMB" ⟨0, 0, 0⟩ 100
      (by decide) (by norm_num) (by decide)]
    have hr : (strContains "BOMB" "ROCKET" || strContains "BOMB" "rocket") = false := by decide
    simp only [hr, s150, cfg150, cfgW, groundPosWithOffset, trivialHost, lookupS, Bool.false_eq_true,
      if_false, List.lookup, List.cons.injEq, Request.explosion.injEq, Vec3.mk.injEq, and_true]
    norm_num
  · rw [primary_power_scaling_chain trivialHost s16 0 "HEATW" ⟨0, 0, 0⟩ 80
      (by decide) (by norm_num) (by decide)]
    have hr : (strContains "HEATW" "ROCKET" || strContains "HEATW" "rocket") = false := by decide
    simp only [hr, s16, cfg16, cfgW, groundPosWithOffset, trivialHost, lookupS, Bool.false_eq_true,
      if_false, List.lookup, List.cons.injEq, Request.explosion.injEq, Vec3.mk.injEq, and_true]
    norm_num

/-- The monitor keeps at most 10 samples. -/
theorem upm_length_le (c : CookOff) (d : Nat) (hlen : c.update_times.length ≤ 10) :
    (update_performance_monitoring c d).update_times.length ≤ 10 := by
  simp only [update_performance_monitoring]
  split_ifs <;> simp_all [List.length_tail, List.length_append]

/-- The interval always matches the current mode, provided it did before. -/
theorem upm_interval_consistent (c : CookOff) (d : Nat)
    (hconsist : c.adaptive_update_interval = intervalFor c.performance_mode) :
    (update_performance_monitoring c d).adaptive_update_interval =
      intervalFor (update_performance_monitoring c d).performance_mode := by
  simp only [update_performance_monitoring]
  split_ifs <;> simp [hconsist]

/-- With at least 5 samples after the push, the mode is selected from the
integer average of the retained samples. -/
theorem upm_mode_selection (c : CookOff) (d : Nat) (times : List Nat)
    (htimes : times = if (c.update_times ++ [d]).length > 10 then
      (c.update_times ++ [d]).tail else c.update_times ++ [d])
    (h5 : times.length ≥ 5) :
    (update_performance_monitoring c d).performance_mode =
      modeOf (times.sum / times.length) ∧
    (update_performance_monitoring c d).update_times = times := by
  simp only [update_performance_monitoring]
  rw [← htimes, if_pos h5]
  split_ifs with hne
  · exact ⟨rfl, rfl⟩
  · exact ⟨(not_ne_iff.mp hne).symm, rfl⟩

/-- A tick arriving before the adaptive interval has elapsed is a no-op. -/
theorem update_of_skip (h : Host) (c : CookOff) (now : Int) (dd : Nat)
    (hs : should_skip_update c now = true) :
    update h c now dd = (c, []) := by
  unfold update
  rw [hs]
  split_ifs <;> simp_all

/-- C8: the governor keeps at most the last 10 tick-cost samples; once at
least 5 samples exist it selects the mode from their integer average with
the 25/16/10 ms thresholds; the interval always matches the selected mode
(100/200/400/750 ms); and a tick is skipped whenever less than the current
interval has elapsed since the last executed tick. -/
theorem governor_samples_modes_and_skip (c : CookOff) (d : Nat)
    (hconsist : c.adaptive_update_interval = intervalFor c.performance_mode)
    (hlen : c.update_times.length ≤ 10) :
    ((update_performance_monitoring c d).update_times.length ≤ 10) ∧
    ((update_performance_monitoring c d).adaptive_update_interval =
      intervalFor (update_performance_monitoring c d).performance_mode) ∧
    (∀ times, times = (if (c.update_times ++ [d]).length > 10 then
        (c.update_times ++ [d]).tail else c.update_times ++ [d]) →
      times.length ≥ 5 →
      (update_performance_monitoring c d).performance_mode =
        modeOf (times.sum / times.length) ∧
      (update_performance_monitoring c d).update_times = times) ∧
    (∀ now, should_skip_update c now = true ↔
      now - c.last_update_time < c.adaptive_update_interval) ∧
    (∀ h now dd, now - c.last_update_time < c.adaptive_update_interval →
      update h c now dd = (c, [])) := by
  refine ⟨upm_length_le c d hlen, upm_interval_consistent c d hconsist,
    fun times htimes h5 => upm_mode_selection c d times htimes h5,
    fun now => by simp [should_skip_update],
    fun h now dd hskip => update_of_skip h c now dd (by simp [should_skip_update, hskip])⟩

/-- Witness for `governor_samples_modes_and_skip`: a fifth 18 ms sample
makes the average 18 ms, so the mode becomes Minimal and the interval
400 ms; a tick 50 ms after the last executed tick is skipped. -/
theorem governor_samples_modes_and_skip_witness :
    (govW.adaptive_update_interval = intervalFor govW.performance_mode ∧
      govW.update_times.length ≤ 10) ∧
    (update_performance_monitoring govW 18000).performance_mode = .Minimal ∧
    (update_performance_monitoring govW 18000).adaptive_update_interval = 400 ∧
    should_skip_update govW 50 = true ∧
    update trivialHost govW 50 0 = (govW, []) := by
  have h := governor_samples_modes_and_skip govW 18000 (by decide) (by decide)
  have hmode : (update_performance_monitoring govW 18000).performance_mode =
      modeOf (([18000, 18000, 18000, 18000, 18000] : List Nat).sum / 5) :=
    (h.2.2.1 [18000, 18000, 18000, 18000, 18000] (by decide) (by decide)).1
  have hmode' : (update_performance_monitoring govW 18000).performance_mode = .Minimal := by
    rw [hmode]; decide
  refine ⟨⟨by decide, by decide⟩, hmode', ?_, ?_, ?_⟩
  · rw [h.2.1, hmode']
    rfl
  · decide
  · exact h.2.2.2.2 trivialHost 50 0 (by decide)

/-- A lookup surviving a filter that keeps the found entry. -/
theorem lookup_filter_of_keep {α : Type} (m : List (Nat × α)) (k : Nat) (v : α)
    (p : Nat × α → Bool) (hm : m.lookup k = some v) (hp : p (k, v) = true) :
    (m.filter p).lookup k = some v := by
  induction m with
  | nil => simp at hm
  | cons kv rest ih =>
      obtain ⟨k', v'⟩ := kv
      simp only [List.lookup] at hm
      cases hbeq : (k == k') with
      | true =>
          rw [hbeq] at hm
          have hv : v' = v := by simpa using hm
          have hk : k = k' := by simpa using hbeq
          subst hv
          subst hk
          rw [List.filter_cons, if_pos hp]
          simp [List.lookup]
      | false =>
          rw [hbeq] at hm
          simp only at hm
          rw [List.filter_cons]
          split
          · simp only [List.lookup, hbeq]
            exact ih hm
          · exact ih hm

/-- C5: once a unit id is in the processed-unit set, any later damage
notification inside the 5-minute retention window is a no-op — the
retention prune keeps the entry, and `process_unit_hit` leaves the whole
cook-off state (in particular the pending-effect map) unchanged and emits
nothing. -/
theorem duplicate_hit_is_noop (h : Host) (c : CookOff) (now nowTick : Int)
    (uid : Nat) (unit_name unit_type : String) (position : Position3)
    (health_percent : ℚ) (is_dead : Bool) (t0 : Int)
    (hmem : lookupA c.processed_units uid = some t0)
    (hwin : nowTick - t0 < 300000) :
    lookupA (prune_processed_units c nowTick).processed_units uid = some t0 ∧
    process_unit_hit h c now uid unit_name unit_type position health_percent
      is_dead = (c, []) ∧
    process_unit_hit h (prune_processed_units c nowTick) now uid unit_name unit_type
      position health_percent is_dead = (prune_processed_units c nowTick, []) := by
  have hkeep : lookupA (prune_processed_units c nowTick).processed_units uid = some t0 := by
    unfold prune_processed_units lookupA
    exact lookup_filter_of_keep c.processed_units uid t0 _ hmem
      (by simp only [decide_eq_true_eq]; omega)
  have noop : ∀ c' : CookOff, lookupA c'.processed_units uid = some t0 →
      process_unit_hit h c' now uid unit_name unit_type position health_percent
        is_dead = (c', []) := by
    intro c' hmem'
    have hsome : (lookupA c'.processed_units uid).isSome = true := by
      simp [hmem']
    by_cases he : c'.config.enabled
    · simp [process_unit_hit, he, hsome]
    · simp [process_unit_hit, he]
  exact ⟨hkeep, noop c hmem, noop _ hkeep⟩

/-- Witness for `duplicate_hit_is_noop`: a second notification for unit 7
at tick time 2000 (1 s after processing) changes nothing. -/
theorem duplicate_hit_is_noop_witness :
    (lookupA procW.processed_units 7 = some 1000 ∧ (2000 : Int) - 1000 < 300000) ∧
    (lookupA (prune_processed_units procW 2000).processed_units 7 = some 1000 ∧
      process_unit_hit trivialHost procW 2000 7 "u" "Tank" ⟨⟨0, 0, 0⟩⟩ 10 false =
        (procW, []) ∧
      process_unit_hit trivialHost (prune_processed_units procW 2000) 2000 7 "u" "Tank"
        ⟨⟨0, 0, 0⟩⟩ 10 false = (prune_processed_units procW 2000, [])) :=
  ⟨⟨by decide, by decide⟩,
    duplicate_hit_is_noop trivialHost procW 2000 2000 7 "u" "Tank" ⟨⟨0, 0, 0⟩⟩ 10 false
      1000 (by decide) (by decide)⟩

/-- Fold preservation helper. -/
theorem foldl_preserve {α β : Type} (P : α → Prop) (f : α → β → α) (l : List β)
    (a : α) (ha : P a) (hf : ∀ x b, P x → P (f x b)) : P (l.foldl f a) := by
  induction l generalizing a with
  | nil => exact ha
  | cons b rest ih => exact ih (f a b) (hf a b ha)

/-- Per-step movement-tracker invariance of the scheduling loops. -/
theorem mt_instantFlareStep (now : Int) (pos : Position3) (ang : ℚ) (i : Nat)
    (x : CookOff) :
    (instantFlareStep now pos ang i x).movement_tracking = x.movement_tracking := rfl

/-- Per-step movement-tracker invariance of the time-spread flare loop. -/
theorem mt_timedFlareStep (h : Host) (now : Int) (pos : Position3) (d : ℚ)
    (x : CookOff) :
    (timedFlareStep h now pos d x).movement_tracking = x.movement_tracking := rfl

/-- Per-step movement-tracker invariance of the cook-off explosion loop. -/
theorem mt_cookoffExplosionStep (e : ScheduledCookOffEffect) (now : Int) (i : Nat)
    (x : CookOff) :
    (cookoffExplosionStep e now i x).movement_tracking = x.movement_tracking := by
  simp only [cookoffExplosionStep, drawQ]
  split_ifs <;> rfl

/-- Per-step movement-tracker invariance of the debris loop. -/
theorem mt_debrisStep (h : Host) (e : ScheduledCookOffEffect) (st : Int)
    (x : CookOff) :
    (debrisStep h e st x).movement_tracking = x.movement_tracking := rfl

/-- Flare/cook-off/debris scheduling never touches the movement-tracker
map. -/
theorem mt_schedule_for_effect (h : Host) (c : CookOff)
    (effect : ScheduledCookOffEffect) (now : Int) :
    (schedule_cookoff_effects_for_effect h c effect now).movement_tracking =
      c.movement_tracking := by
  have hflare : ∀ c' : CookOff,
      (schedule_cookoff_flares_timed h c' effect.position effect.cookoff.count
        effect.cookoff.duration now).movement_tracking = c'.movement_tracking := by
    intro c'
    simp only [schedule_cookoff_flares_timed, drawQ, drawN]
    split_ifs
    · rfl
    · rfl
    · refine foldl_preserve (fun x : CookOff => x.movement_tracking = c'.movement_tracking)
        _ _ _ rfl ?_
      exact fun x b hx => (mt_instantFlareStep _ _ _ _ _).trans hx
    · refine foldl_preserve (fun x : CookOff => x.movement_tracking = c'.movement_tracking)
        _ _ _ rfl ?_
      exact fun x b hx => (mt_timedFlareStep _ _ _ _ _).trans hx
  have hcook : ∀ c' : CookOff,
      ((List.range effect.cookoff.count).foldl
        (fun x i => cookoffExplosionStep effect now i x) c').movement_tracking =
        c'.movement_tracking := by
    intro c'
    refine foldl_preserve (fun x : CookOff => x.movement_tracking = c'.movement_tracking)
      _ _ _ rfl ?_
    exact fun x b hx => (mt_cookoffExplosionStep _ _ _ _).trans hx
  have hdebris : ∀ c' : CookOff,
      (schedule_debris_effects_timed h c' effect now).movement_tracking =
        c'.movement_tracking := by
    intro c'
    simp only [schedule_debris_effects_timed, drawQ, drawN]
    refine foldl_preserve (fun x : CookOff => x.movement_tracking = c'.movement_tracking)
      _ _ _ rfl ?_
    exact fun x b hx => (mt_debrisStep _ _ _ _).trans hx
  simp only [schedule_cookoff_effects_for_effect]
  split <;> split <;> simp only [hdebris, hcook, hflare]

/-- Triggering effects never touches the movement-tracker map. -/
theorem mt_trigger_effects (h : Host) (c : CookOff) (unit_id : Nat) (now : Int) :
    (trigger_effects_immediately h c unit_id now).1.movement_tracking =
      c.movement_tracking := by
  simp only [trigger_effects_immediately]
  split
  · rfl
  · dsimp only
    split
    · exact mt_schedule_for_effect ..
    · rfl

/-- A stationary chain long enough to reach the check limit triggers. -/
theorem feed_chain_triggers (sq : ℚ → ℚ) :
    ∀ (samples : List (Int × Vec3)) (t : MovementTracker),
      stationaryChain sq t samples = true →
      samples ≠ [] →
      t.stationary_checks + samples.length = t.max_stationary_checks →
      feedSamples sq t (samples.map fun s => (s.1, some s.2)) = .triggered := by
  intro samples
  induction samples with
  | nil => intro t _ hne _; exact absurd rfl hne
  | cons s rest ih =>
      intro t hchain _ hcount
      obtain ⟨now, p⟩ := s
      simp only [stationaryChain, Bool.and_eq_true, decide_eq_true_eq] at hchain
      obtain ⟨⟨h1, h2⟩, hrest⟩ := hchain
      simp only [List.map_cons, feedSamples, movement_step_obs, not_not_intro h1, if_neg,
        not_true_eq_false, if_false, if_pos h2]
      rcases rest with _ | ⟨r, rs⟩
      · simp only [List.length_cons, List.length_nil, Nat.zero_add] at hcount
        rw [if_pos (by omega)]
      · rw [if_neg (by simp only [List.length_cons] at hcount ⊢; omega)]
        exact ih _ hrest (by simp) (by simp only [List.length_cons] at hcount ⊢; omega)

/-- A stationary chain shorter than the check limit keeps tracking, with
the counter advanced by the number of samples. -/
theorem feed_chain_tracks (sq : ℚ → ℚ) :
    ∀ (samples : List (Int × Vec3)) (t : MovementTracker),
      stationaryChain sq t samples = true →
      t.stationary_checks + samples.length < t.max_stationary_checks →
      ∃ t', feedSamples sq t (samples.map fun s => (s.1, some s.2)) = .tracking t' ∧
        t'.stationary_checks = t.stationary_checks + samples.length ∧
        t'.max_stationary_checks = t.max_stationary_checks := by
  intro samples
  induction samples with
  | nil => intro t _ _; exact ⟨t, rfl, by simp, rfl⟩
  | cons s rest ih =>
      intro t hchain hcount
      obtain ⟨now, p⟩ := s
      simp only [stationaryChain, Bool.and_eq_true, decide_eq_true_eq] at hchain
      obtain ⟨⟨h1, h2⟩, hrest⟩ := hchain
      simp only [List.map_cons, feedSamples, movement_step_obs, not_not_intro h1, if_neg,
        not_true_eq_false, if_false, if_pos h2]
      rw [if_neg (by simp only [List.length_cons] at hcount ⊢; omega)]
      obtain ⟨t', hfeed, hchecks, hmax⟩ := ih _ hrest
        (by simp only [List.length_cons] at hcount ⊢; omega)
      refine ⟨t', hfeed, ?_, hmax⟩
      rw [hchecks]
      simp only [List.length_cons]
      omega

/-- C6: a freshly tracked unit that displaces less than
`movement_threshold` on each of exactly `max_stationary_checks` consecutive
valid 1-second samples is triggered (and, in the tracking update, its
tracker is removed); fewer such samples only advance the counter; and any
sample displacing at least the threshold resets the counter to 0. -/
theorem movement_gating (sq : ℚ → ℚ) (t : MovementTracker)
    (samples : List (Int × Vec3))
    (hzero : t.stationary_checks = 0)
    (hmax : 0 < t.max_stationary_checks) :
    (samples.length = t.max_stationary_checks →
      stationaryChain sq t samples = true →
      feedSamples sq t (samples.map fun s => (s.1, some s.2)) = .triggered) ∧
    (samples.length < t.max_stationary_checks →
      stationaryChain sq t samples = true →
      ∃ t', feedSamples sq t (samples.map fun s => (s.1, some s.2)) = .tracking t' ∧
        t'.stationary_checks = samples.length) ∧
    (∀ (now : Int) (p : Vec3), now - t.last_update ≥ 1000 →
      ¬ sq (distSq p t.last_position) < t.movement_threshold →
      movement_step_obs t now (some p) sq =
        .reset { t with stationary_checks := 0, last_position := p, last_update := now }) ∧
    (∀ (h : Host) (c : CookOff) (now : Int) (uid : Nat) (tr : MovementTracker),
      c.movement_tracking = [(uid, tr)] →
      movement_step h tr now = .trigger →
      (update_movement_tracking h c now).1.movement_tracking = [] ∧
      (update_movement_tracking h c now).2 =
        (trigger_effects_immediately h c uid now).2) := by
  refine ⟨?_, ?_, ?_, ?_⟩
  · intro hlen hchain
    refine feed_chain_triggers sq samples t hchain ?_ (by omega)
    intro hnil
    rw [hnil] at hlen
    simp at hlen
    omega
  · intro hlen hchain
    obtain ⟨t', hfeed, hchecks, _⟩ := feed_chain_tracks sq samples t hchain (by omega)
    exact ⟨t', hfeed, by omega⟩
  · intro now p h1 h2
    simp only [movement_step_obs, not_not_intro h1, if_neg, not_true_eq_false, if_false]
    rw [if_neg h2]
  · intro h c now uid tr hmap hstep
    have heta : { c with movement_tracking := c.movement_tracking } = c := rfl
    unfold update_movement_tracking
    rw [hmap]
    simp only [List.map_cons, List.map_nil, hstep, List.foldl_cons, List.foldl_nil,
      List.filterMap_cons, List.filterMap_nil]
    rw [← hmap, heta]
    constructor
    · rw [mt_trigger_effects, hmap]
      simp [removeA]
    · simp

/-- Witness for `movement_gating`: three consecutive zero-displacement
1-second samples trigger a fresh tracker with the default limit 3. -/
theorem movement_gating_witness :
    (trackW.stationary_checks = 0 ∧ 0 < trackW.max_stationary_checks ∧
      stationaryChain (fun _ => 0) trackW samplesW = true ∧
      samplesW.length = trackW.max_stationary_checks) ∧
    feedSamples (fun _ => 0) trackW (samplesW.map fun s => (s.1, some s.2)) =
      .triggered := by
  refine ⟨⟨by decide, by decide, by decide, by decide⟩, ?_⟩
  exact (movement_gating (fun _ => 0) trackW samplesW (by decide) (by decide)).1
    (by decide) (by decide)

/-- A lost (unrelocatable) unit's tracker is removed without any trigger
(shared content of the amended C7 claim). -/
theorem lost_removed_spec (h : Host) (c : CookOff) (now : Int)
    (uid : Nat) (t : MovementTracker)
    (hmap : c.movement_tracking = [(uid, t)])
    (hdue : now - t.last_update ≥ 1000)
    (hlost : h.relocateUnit t.unit_id t.last_position = none) :
    update_movement_tracking h c now = ({ c with movement_tracking := [] }, []) := by
  have hstep : movement_step h t now = .removeLost := by
    unfold movement_step movement_step_obs
    rw [if_neg (not_not_intro hdue), hlost]
  unfold update_movement_tracking
  rw [hmap]
  simp only [List.map_cons, List.map_nil, hstep, List.foldl_cons, List.foldl_nil,
    List.filterMap_cons, List.filterMap_nil]
  simp [removeA]

/-- C7 (amended): when a movement-tracked unit cannot be relocated during a
due tracking update, its tracker is removed but its effects are NOT
triggered — no requests are emitted, and the whole remaining state
(including the still-queued scheduled effect) is unchanged. -/
theorem lost_unit_removed_without_trigger (h : Host) (c : CookOff) (now : Int)
    (uid : Nat) (t : MovementTracker)
    (hmap : c.movement_tracking = [(uid, t)])
    (hdue : now - t.last_update ≥ 1000)
    (hlost : h.relocateUnit t.unit_id t.last_position = none) :
    update_movement_tracking h c now = ({ c with movement_tracking := [] }, []) :=
  lost_removed_spec h c now uid t hmap hdue hlost

/-- C7 counterexample: at time 1000 the unit cannot be relocated; the
claim says the unit is promoted and its queued effects are triggered, but
the update emits no request, leaves the scheduled effect in the queue, and
only removes the tracker — while actually triggering the unit would have
emitted its enabled initial explosion. -/
theorem lost_unit_claim_counterexample :
    (update_movement_tracking lostHost lostW 1000).2 = [] ∧
    (update_movement_tracking lostHost lostW 1000).1.effect_queue = lostW.effect_queue ∧
    (update_movement_tracking lostHost lostW 1000).1.movement_tracking = [] ∧
    (trigger_effects_immediately lostHost lostW 1 1000).2 ≠ [] := by
  have h := lost_removed_spec lostHost lostW 1000 1 trackW rfl
    (by decide) rfl
  rw [h]
  refine ⟨rfl, rfl, rfl, ?_⟩
  simp [trigger_effects_immediately, lostW, govW, trackW, cookoffCreateExplosion]

/-- Realizing one timed explosion never touches the queue itself. -/
theorem te_realize_timed (h : Host) (c : CookOff) (te : TimedExplosion) :
    (realize_timed h c te).1.timed_explosions = c.timed_explosions := by
  unfold realize_timed
  rcases hty : te.effect_type with _ | _ | _ <;> simp only [hty]
  · split_ifs <;> rfl
  · split_ifs <;> rfl
  · rcases haz : te.azimuth with _ | a <;> simp [haz, drawN, drawQ]

/-- The drain loop pops exactly the maximal elapsed prefix. -/
theorem drainTimed_drops_elapsed (h : Host) (now : Int) :
    ∀ (l : List TimedExplosion) (c : CookOff),
      (drainTimed h now c l).1.timed_explosions =
        l.dropWhile fun te => decide (now ≥ te.trigger_time) := by
  intro l
  induction l with
  | nil => intro c; rfl
  | cons te rest ih =>
      intro c
      unfold drainTimed
      split_ifs with hdue
      · simp only [List.dropWhile_cons, decide_eq_true_eq, hdue, if_pos, ite_true]
        rcases hre : realize_timed h c te with ⟨c1, reqs1⟩
        simp only [hre]
        rcases hdr : drainTimed h now c1 rest with ⟨c2, reqs2⟩
        simp only [hdr]
        have hq := ih c1
        rw [hdr] at hq
        exact hq
      · simp [List.dropWhile_cons, hdue]

/-- C9 (amended): draining commits exactly the maximal elapsed prefix of
the queue — every committed entry's trigger time has elapsed, scanning
stops at the first entry not yet due — and the committed trigger times
follow queue order, which is non-decreasing whenever the queue itself is
time-sorted (out-of-order enqueues are possible, see the counterexample). -/
theorem timed_drain_elapsed_head (h : Host) (c : CookOff) (now : Int) :
    ((process_timed_explosions h c now).1.timed_explosions =
      c.timed_explosions.dropWhile fun te => decide (now ≥ te.trigger_time)) ∧
    (∀ tt ∈ commitTimes c now, tt ≤ now) ∧
    (List.Chain' (· ≤ ·) (c.timed_explosions.map (·.trigger_time)) →
      List.Chain' (· ≤ ·) (commitTimes c now)) := by
  refine ⟨drainTimed_drops_elapsed h now c.timed_explosions c, ?_, ?_⟩
  · intro tt htt
    unfold commitTimes at htt
    rcases List.mem_map.mp htt with ⟨te, hte, rfl⟩
    simpa using List.mem_takeWhile_imp hte
  · intro hsorted
    unfold commitTimes
    exact List.Chain'.sublist hsorted
      (List.Sublist.map _ (List.takeWhile_sublist _))

/-- C9 counterexample: a single scheduling call with random timing
enqueues trigger times 9000 ms then 1000 ms — out of temporal order — and
draining at 9000 ms commits both, in the order 9000, 1000: strictly
decreasing, refuting "dequeued in non-decreasing trigger-time order". -/
theorem timed_commit_order_counterexample :
    schedC9.timed_explosions =
      [⟨⟨⟨0, 0, 0⟩⟩, 5, 9000, .Cookoff, none⟩, ⟨⟨⟨0, 0, 0⟩⟩, 5, 1000, .Cookoff, none⟩] ∧
    commitTimes schedC9 9000 = [9000, 1000] ∧
    ¬ List.Chain' (· ≤ ·) (commitTimes schedC9 9000) ∧
    (process_timed_explosions trivialHost schedC9 9000).1.timed_explosions = [] := by
  have htrunc1 : truncQ ((9 / 10 : ℚ) * 10 * 1000) = 9000 := by
    norm_num [truncQ]
  have htrunc2 : truncQ ((1 / 10 : ℚ) * 10 * 1000) = 1000 := by
    norm_num [truncQ]
  have hq : schedC9.timed_explosions =
      [⟨⟨⟨0, 0, 0⟩⟩, 5, 9000, .Cookoff, none⟩, ⟨⟨⟨0, 0, 0⟩⟩, 5, 1000, .Cookoff, none⟩] := by
    show (schedule_cookoff_effects_for_effect trivialHost preC9 effC9 0).timed_explosions = _
    simp only [schedule_cookoff_effects_for_effect, preC9, govW, effC9,
      schedule_cookoff_flares_timed, schedule_debris_effects_timed, cookoffExplosionStep,
      drawQ, drawN]
    norm_num [List.range_succ, htrunc1, htrunc2, truncQ]
  refine ⟨hq, ?_, ?_, ?_⟩
  · rw [commitTimes, hq]
    decide
  · rw [commitTimes, hq]
    simp [List.chain'_cons]
  · have h4 := drainTimed_drops_elapsed trivialHost 9000 schedC9.timed_explosions schedC9
    unfold process_timed_explosions
    rw [h4, hq]
    decide

/-- An entry at least as fresh as the cutoff survives the front prune when
appended last. -/
theorem mem_pruneRecentFront_append (cutoff : Int) (e : RecentExplosion)
    (he : cutoff ≤ e.time) :
    ∀ l : List RecentExplosion, e ∈ pruneRecentFront cutoff (l ++ [e]) := by
  intro l
  induction l with
  | nil => simp [pruneRecentFront, not_lt.mpr he]
  | cons r rest ih =>
      simp only [List.cons_append, pruneRecentFront]
      split_ifs with hr
      · exact ih
      · exact List.mem_cons_of_mem r (List.mem_append_right rest (by simp))

/-- On a rejected attempt, `create_explosion` emits nothing while
`create_wave_explosion` still records the attempt and still runs the wave
pipeline (shared content of the amended C2 claim). -/
theorem suppression_partial_spec (h : Host) (s : SplashDamage) (now : Int)
    (center : Vec3) (power : ℚ) (weapon_type : String)
    (hwave : s.config.wave_explosions.enabled = true)
    (hprot : check_ordnance_protection h s now
      ⟨center.x, h.groundHeight center.x center.z + 1 / 10, center.z⟩ = false) :
    create_explosion h s now weapon_type
      ⟨center.x, h.groundHeight center.x center.z + 1 / 10, center.z⟩ = [] ∧
    (⟨⟨center.x, h.groundHeight center.x center.z + 1 / 10, center.z⟩, now,
        if s.config.blast_wave.use_dynamic_radius then
          calculate_dynamic_blast_radius h s.config power
        else s.config.blast_wave.search_radius⟩ : RecentExplosion) ∈
      (create_wave_explosion h s now center power weapon_type).1.recent_explosions ∧
    (create_wave_explosion h s now center power weapon_type).2 =
      execute_blast_wave h s.config
        ⟨center.x, h.groundHeight center.x center.z + 1 / 10, center.z⟩
        (if s.config.blast_wave.use_dynamic_radius then
          calculate_dynamic_blast_radius h s.config power
        else s.config.blast_wave.search_radius) power ++
      schedule_wave_effects h
        (add_recent_explosion s now
          ⟨center.x, h.groundHeight center.x center.z + 1 / 10, center.z⟩
          (if s.config.blast_wave.use_dynamic_radius then
            calculate_dynamic_blast_radius h s.config power
          else s.config.blast_wave.search_radius)) now
        ⟨center.x, h.groundHeight center.x center.z + 1 / 10, center.z⟩ power
        weapon_type := by
  have hce : create_explosion h s now weapon_type
      ⟨center.x, h.groundHeight center.x center.z + 1 / 10, center.z⟩ = [] := by
    unfold create_explosion
    rcases hp : s.config.get_weapon_power weapon_type with _ | B
    · simp only [hp]
    · simp only [hp, hprot, Bool.false_eq_true, not_false_iff, if_true]
      split_ifs <;> rfl
  refine ⟨hce, ?_, ?_⟩
  · simp only [create_wave_explosion, hwave, not_true_eq_false, if_false,
      add_recent_explosion]
    exact mem_pruneRecentFront_append (now - 10000) _ (by show now - 10000 ≤ now; omega) _
  · simp only [create_wave_explosion, hwave, not_true_eq_false, if_false, hce,
      List.nil_append]
    rfl

/-- C2 (amended): an explosion attempt rejected by the ordnance-protection
filter emits no primary explosion and no cluster sub-explosion
(`create_explosion` returns nothing), but `create_wave_explosion` still
appends a `RecentExplosion` record for the suppressed attempt and still
runs the blast-wave scan and the scheduled wave effects. -/
theorem ordnance_suppression_keeps_record (h : Host) (s : SplashDamage) (now : Int)
    (center : Vec3) (power : ℚ) (weapon_type : String)
    (hwave : s.config.wave_explosions.enabled = true)
    (hprot : check_ordnance_protection h s now
      ⟨center.x, h.groundHeight center.x center.z + 1 / 10, center.z⟩ = false) :
    create_explosion h s now weapon_type
      ⟨center.x, h.groundHeight center.x center.z + 1 / 10, center.z⟩ = [] ∧
    (⟨⟨center.x, h.groundHeight center.x center.z + 1 / 10, center.z⟩, now,
        if s.config.blast_wave.use_dynamic_radius then
          calculate_dynamic_blast_radius h s.config power
        else s.config.blast_wave.search_radius⟩ : RecentExplosion) ∈
      (create_wave_explosion h s now center power weapon_type).1.recent_explosions ∧
    (create_wave_explosion h s now center power weapon_type).2 =
      execute_blast_wave h s.config
        ⟨center.x, h.groundHeight center.x center.z + 1 / 10, center.z⟩
        (if s.config.blast_wave.use_dynamic_radius then
          calculate_dynamic_blast_radius h s.config power
        else s.config.blast_wave.search_radius) power ++
      schedule_wave_effects h
        (add_recent_explosion s now
          ⟨center.x, h.groundHeight center.x center.z + 1 / 10, center.z⟩
          (if s.config.blast_wave.use_dynamic_radius then
            calculate_dynamic_blast_radius h s.config power
          else s.config.blast_wave.search_radius)) now
        ⟨center.x, h.groundHeight center.x center.z + 1 / 10, center.z⟩ power
        weapon_type :=
  suppression_partial_spec h s now center power weapon_type hwave hprot

/-- C2 counterexample: at time 1000 an attempt at the origin is rejected
by ordnance protection (a recent explosion lies within the protection
radius), and indeed zero primary explosions are emitted — but the attempt
still appends a second `RecentExplosion` record, and the blast-wave scan
still runs and emits a cascade sub-explosion, so the explosion is not
"dropped entirely with no partial effects". -/
theorem ordnance_suppression_counterexample :
    check_ordnance_protection scanHostW c2State 1000
      ⟨0, scanHostW.groundHeight 0 0 + 1 / 10, 0⟩ = false ∧
    (create_wave_explosion scanHostW c2State 1000 ⟨0, 0, 0⟩ 100 "BOMB").2.filter
      Request.isPrimary = [] ∧
    (create_wave_explosion scanHostW c2State 1000 ⟨0, 0, 0⟩ 100 "BOMB").1.recent_explosions.length = 2 ∧
    (create_wave_explosion scanHostW c2State 1000 ⟨0, 0, 0⟩ 100 "BOMB").2 ≠ [] := by
  have hprot : check_ordnance_protection scanHostW c2State 1000
      ⟨0, scanHostW.groundHeight 0 0 + 1 / 10, 0⟩ = false := by
    simp [check_ordnance_protection, c2State, c2cfg, cfgW, is_within_sphere, scanHostW,
      trivialHost]
  have hmain := suppression_partial_spec scanHostW c2State 1000 ⟨0, 0, 0⟩ 100 "BOMB"
    (by decide) (by simpa using hprot)
  refine ⟨hprot, ?_, ?_, ?_⟩
  · rw [hmain.2.2]
    simp only [List.filter_append, filter_isPrimary_blast_wave, List.nil_append,
      schedule_wave_effects]
    rw [if_neg (by norm_num [add_recent_explosion, c2State, c2cfg, cfgW])]
    rfl
  · simp only [create_wave_explosion, c2State, c2cfg, cfgW, scanHostW, trivialHost,
      add_recent_explosion, pruneRecentFront]
    norm_num [pruneRecentFront]
  · rw [hmain.2.2]
    intro hcon
    rcases List.append_eq_nil.mp hcon with ⟨hex, _⟩
    have : execute_blast_wave scanHostW c2State.config
        ⟨0, scanHostW.groundHeight 0 0 + 1 / 10, 0⟩ 100 100 ≠ [] := by
      simp only [execute_blast_wave, scan_units_in_radius, scanHostW, trivialHost]
      norm_num [process_unit_for_cascade, calculate_blast_damage, c2State, c2cfg, cfgW,
        create_explosion_with_power_static]
      exact List.cons_ne_nil _ _
    exact this (by simpa using hex)

/-- With the ordnance-protection feature disabled the filter always
allows. -/
theorem protection_disabled_allows (h : Host) (s : SplashDamage) (now : Int)
    (p : Vec3) (hd : s.config.ordnance_protection.enabled = false) :
    check_ordnance_protection h s now p = true := by
  unfold check_ordnance_protection
  rw [if_pos (by simp [hd])]

/-- The scheduled wave effects emit no primary explosion when the
synthetic `_cascade` weapon name is unconfigured. -/
theorem filter_isPrimary_wave_effects (h : Host) (s : SplashDamage) (now : Int)
    (center : Vec3) (power : ℚ) (weapon_type : String)
    (hc : s.config.get_weapon_power (weapon_type ++ "_cascade") = none) :
    (schedule_wave_effects h s now center power weapon_type).filter
      Request.isPrimary = [] := by
  unfold schedule_wave_effects create_cascade_explosions
  split_ifs with h1 h2 <;> simp [create_explosion, hc]

/-- A wave explosion for a configured weapon with positive power, wave
explosions enabled and ordnance protection disabled: the state keeps its
tracked weapons, and exactly one primary request is emitted, at the
ground-snapped center. -/
theorem wave_filter_primary (h : Host) (s : SplashDamage) (now : Int)
    (center : Vec3) (B : ℚ) (wt : String)
    (hwave : s.config.wave_explosions.enabled = true)
    (hpow : s.config.get_weapon_power wt = some B)
    (hBpos : 0 < B)
    (hprotoff : s.config.ordnance_protection.enabled = false)
    (hcasc : s.config.get_weapon_power (wt ++ "_cascade") = none) :
    (create_wave_explosion h s now center B wt).1.tracked_weapons =
      s.tracked_weapons ∧
    (create_wave_explosion h s now center B wt).2.filter Request.isPrimary =
      [.explosion ⟨center.x, h.groundHeight center.x center.z + 1 / 10, center.z⟩
        (B * s.config.overall_scaling *
          (if strContains wt "ROCKET" || strContains wt "rocket" then
            s.config.rocket_multiplier
          else 1) *
          (if s.config.shaped_charge.enabled &&
              (lookupS s.config.heat_weapons wt).getD false then
            s.config.shaped_charge.multiplier
          else 1))] := by
  have hce := filter_isPrimary_create_explosion h s now wt
    ⟨center.x, h.groundHeight center.x center.z + 1 / 10, center.z⟩ B hpow hBpos
    (protection_disabled_allows h s now _ hprotoff)
  have hcasc2 : (add_recent_explosion s now
      ⟨center.x, h.groundHeight center.x center.z + 1 / 10, center.z⟩
      (if s.config.blast_wave.use_dynamic_radius then
        calculate_dynamic_blast_radius h s.config B
      else s.config.blast_wave.search_radius)).config.get_weapon_power
      (wt ++ "_cascade") = none := hcasc
  simp only [create_wave_explosion]
  rw [if_neg (by simp [hwave])]
  constructor
  · simp [add_recent_explosion]
  · rw [List.filter_append, List.filter_append, hce, filter_isPrimary_blast_wave]
    rw [filter_isPrimary_wave_effects _ _ _ _ _ _ hcasc2]
    simp [groundPosWithOffset]

/-- C1: for a singly tracked weapon whose type has configured power
`B > 0`, when the host no longer resolves the weapon, the impact check
removes the weapon's entry in the same tick and emits exactly one primary
explosion request, positioned (ground-snapped) at the last predicted
impact point — falling back to the last known position when no prediction
exists. -/
theorem impact_emits_one_primary_and_removes (h : Host) (s : SplashDamage)
    (now : Int) (wid : Nat) (tw : TrackedWeapon) (B : ℚ)
    (hmap : s.tracked_weapons = [(wid, tw)])
    (hres : h.resolveWeapon wid = none)
    (hpow : s.config.get_weapon_power tw.weapon_type = some B)
    (hBpos : 0 < B)
    (hen : s.config.enabled = true)
    (hwave : s.config.wave_explosions.enabled = true)
    (hprotoff : s.config.ordnance_protection.enabled = false)
    (hcasc : s.config.get_weapon_power (tw.weapon_type ++ "_cascade") = none) :
    (check_weapon_impacts h s now).1.tracked_weapons = [] ∧
    ((check_weapon_impacts h s now).2.filter Request.isPrimary).length = 1 ∧
    (∃ P, (check_weapon_impacts h s now).2.filter Request.isPrimary =
      [.explosion
        ⟨(tw.predicted_impact.getD tw.position).x,
          h.groundHeight (tw.predicted_impact.getD tw.position).x
            (tw.predicted_impact.getD tw.position).z + 1 / 10,
          (tw.predicted_impact.getD tw.position).z⟩ P]) := by
  have hscan : scan_weapon h s.config now wid tw =
      .impact (some (tw.predicted_impact.getD tw.position, B, tw.weapon_type)) := by
    simp only [scan_weapon, hres, hpow, Option.map_some']
  have hwave' := wave_filter_primary h
    ⟨s.config, removeA [(wid, tw)] wid, s.recent_explosions⟩ now
    (tw.predicted_impact.getD tw.position) B tw.weapon_type hwave hpow hBpos
    hprotoff hcasc
  unfold check_weapon_impacts
  rw [if_neg (by simp [hen])]
  simp only [hmap, List.map_cons, List.map_nil, hscan, List.filterMap_cons,
    List.filterMap_nil, List.foldl_cons, List.foldl_nil, List.nil_append]
  refine ⟨?_, ?_, ?_⟩
  · rw [hwave'.1]
    simp [removeA]
  · rw [hwave'.2]
    rfl
  · exact ⟨_, hwave'.2⟩

/-- Witness for `impact_emits_one_primary_and_removes`: weapon 5 no longer
resolves, so the tick removes it and emits one primary explosion at its
predicted impact point. -/
theorem impact_emits_one_primary_and_removes_witness :
    (impactState.tracked_weapons = [(5, twW)] ∧
      trivialHost.resolveWeapon 5 = none ∧
      impactState.config.get_weapon_power twW.weapon_type = some 100 ∧
      (0 : ℚ) < 100 ∧
      impactState.config.get_weapon_power (twW.weapon_type ++ "_cascade") = none) ∧
    ((check_weapon_impacts trivialHost impactState 0).1.tracked_weapons = [] ∧
      ((check_weapon_impacts trivialHost impactState 0).2.filter
        Request.isPrimary).length = 1 ∧
      (∃ P, (check_weapon_impacts trivialHost impactState 0).2.filter
          Request.isPrimary =
        [.explosion
          ⟨(twW.predicted_impact.getD twW.position).x,
            trivialHost.groundHeight (twW.predicted_impact.getD twW.position).x
              (twW.predicted_impact.getD twW.position).z + 1 / 10,
            (twW.predicted_impact.getD twW.position).z⟩ P])) :=
  ⟨⟨rfl, rfl, by decide, by norm_num, by decide⟩,
    impact_emits_one_primary_and_removes trivialHost impactState 0 5 twW 100 rfl rfl
      (by decide) (by norm_num) (by decide) (by decide) (by decide) (by decide)⟩

/-- Witness for `ordnance_suppression_keeps_record` at the counterexample's
input: the suppressed attempt emits no `create_explosion` output yet
records a `RecentExplosion`. -/
theorem ordnance_suppression_record_witness :
    (c2State.config.wave_explosions.enabled = true ∧
      check_ordnance_protection scanHostW c2State 1000
        ⟨(⟨0, 0, 0⟩ : Vec3).x,
          scanHostW.groundHeight (⟨0, 0, 0⟩ : Vec3).x (⟨0, 0, 0⟩ : Vec3).z + 1 / 10,
          (⟨0, 0, 0⟩ : Vec3).z⟩ = false) ∧
    (create_explosion scanHostW c2State 1000 "BOMB"
        ⟨(⟨0, 0, 0⟩ : Vec3).x,
          scanHostW.groundHeight (⟨0, 0, 0⟩ : Vec3).x (⟨0, 0, 0⟩ : Vec3).z + 1 / 10,
          (⟨0, 0, 0⟩ : Vec3).z⟩ = [] ∧
      (⟨⟨(⟨0, 0, 0⟩ : Vec3).x,
          scanHostW.groundHeight (⟨0, 0, 0⟩ : Vec3).x (⟨0, 0, 0⟩ : Vec3).z + 1 / 10,
          (⟨0, 0, 0⟩ : Vec3).z⟩, 1000,
        if c2State.config.blast_wave.use_dynamic_radius then
          calculate_dynamic_blast_radius scanHostW c2State.config 100
        else c2State.config.blast_wave.search_radius⟩ : RecentExplosion) ∈
        (create_wave_explosion scanHostW c2State 1000 ⟨0, 0, 0⟩ 100 "BOMB").1.recent_explosions) := by
  have hprot : check_ordnance_protection scanHostW c2State 1000
      ⟨(⟨0, 0, 0⟩ : Vec3).x,
        scanHostW.groundHeight (⟨0, 0, 0⟩ : Vec3).x (⟨0, 0, 0⟩ : Vec3).z + 1 / 10,
        (⟨0, 0, 0⟩ : Vec3).z⟩ = false := by
    simp [check_ordnance_protection, c2State, c2cfg, cfgW, is_within_sphere, scanHostW,
      trivialHost]
  have hm := ordnance_suppression_keeps_record scanHostW c2State 1000 ⟨0, 0, 0⟩ 100 "BOMB"
    (by decide) hprot
  exact ⟨⟨by decide, hprot⟩, hm.1, hm.2.1⟩

/-- Witness for `lost_unit_removed_without_trigger` at the
counterexample's input. -/
theorem lost_unit_removed_without_trigger_witness :
    (lostW.movement_tracking = [(1, trackW)] ∧
      (1000 : Int) - trackW.last_update ≥ 1000 ∧
      lostHost.relocateUnit trackW.unit_id trackW.last_position = none) ∧
    update_movement_tracking lostHost lostW 1000 =
      ({ lostW with movement_tracking := [] }, []) :=
  ⟨⟨rfl, by decide, rfl⟩,
    lost_unit_removed_without_trigger lostHost lostW 1000 1 trackW rfl (by decide) rfl⟩

/-- Witness for `timed_drain_elapsed_head`: draining a sorted two-entry
queue at time 200 pops exactly the elapsed head, every committed time has
elapsed, and the committed times are non-decreasing. -/
theorem timed_drain_elapsed_head_witness :
    ((process_timed_explosions trivialHost drainW 200).1.timed_explosions =
      drainW.timed_explosions.dropWhile fun te => decide ((200 : Int) ≥ te.trigger_time)) ∧
    (∀ tt ∈ commitTimes drainW 200, tt ≤ 200) ∧
    (List.Chain' (· ≤ ·) (drainW.timed_explosions.map (·.trigger_time)) →
      List.Chain' (· ≤ ·) (commitTimes drainW 200)) :=
  timed_drain_elapsed_head trivialHost drainW 200

end Splash
